import Mathlib

/-!
# FreeTAXII server: service assembly, tri-state JSON fields, error emitters

A shallow embedding of

* `src/internal/config/jsonTypes.go` : `JSONbool`, `JSONstring` and their `UnmarshalJSON`;
* `src/lib/server/server.go`          : `ServerHandlerType` and its four constructors;
* `src/freetaxii.go`                  : the part of `main` that registers the handlers,
  checks `serviceCounter` and selects the listener;
* `src/internal/handlers/errors.go`   : the six error emitters.

Conventions.  A Go `string` is a Lean `String`, a Go slice is a `List`, a Go `map[string]T`
is an association list read with `mapIndex` (first binding of the key, the zero value of
`T` when the key is absent).  Code that mutates a value is a function from the old value to
the new one.  `serviceCounter` is a Go `int`; it counts registrations and is a `Nat` here.
The logger calls of the sources have no effect on the values modelled and are left out.
-/

namespace FreeTAXII

/-! ## Tri-state JSON types (`src/internal/config/jsonTypes.go`) -/

/-- JSONbool: a boolean that records whether the key was present (`Set`) and whether its
value was not null (`Valid`). -/
structure JSONbool where
  Value : Bool
  Valid : Bool
  Set : Bool
deriving DecidableEq, Repr

/-- JSONstring: a string that records whether the key was present (`Set`) and whether its
value was not null (`Valid`). -/
structure JSONstring where
  Value : String
  Valid : Bool
  Set : Bool
deriving DecidableEq, Repr

/-- The Go zero value of `JSONbool`. -/
def JSONbool.zero : JSONbool := { Value := false, Valid := false, Set := false }

/-- The Go zero value of `JSONstring`. -/
def JSONstring.zero : JSONstring := { Value := "", Valid := false, Set := false }

/-! ## Resources of the TAXII library (`libstix2/resources`, an external package)

Only the fields read by the sources are kept. -/

/-- The collection resource: identifier, title and the two capability flags. -/
structure CollectionType where
  ID : String
  Title : String
  CanRead : Bool
  CanWrite : Bool
deriving DecidableEq, Repr

/-- The Go zero value of `CollectionType`, which a map read returns for an absent key. -/
def CollectionType.zero : CollectionType :=
  { ID := "", Title := "", CanRead := false, CanWrite := false }

/-- The collections resource: the list built by `AddCollection`. -/
structure CollectionsType where
  Collections : List CollectionType
deriving DecidableEq, Repr

/-- resources.NewCollections: an empty collections resource. -/
def NewCollections : CollectionsType := { Collections := [] }

/-- AddCollection: appends one collection to the resource. -/
def CollectionsType.AddCollection (cs : CollectionsType) (col : CollectionType) :
    CollectionsType :=
  { Collections := cs.Collections ++ [col] }

/-- The discovery resource (title only). -/
structure DiscoveryType where
  Title : String
deriving DecidableEq, Repr

/-- The API root resource (title only). -/
structure APIRootType where
  Title : String
deriving DecidableEq, Repr

/-- The value of the untyped `Resource` field of a handler. -/
inductive ResourceValue where
  | null
  | discovery (r : DiscoveryType)
  | apiRoot (r : APIRootType)
  | collections (r : CollectionsType)
  | collection (r : CollectionType)
deriving DecidableEq, Repr

/-- The datastore handle: `sqlite3.New(databaseFilename)`. -/
structure Datastorer where
  databaseFilename : String
deriving DecidableEq, Repr

/-! ## Configuration (`lib/config`, read by `main` and by the handler constructors)

The type declarations are not among the sources; the fields are the ones the sources read.
`main` calls the path of a service `FullPath`, `server.go` calls it `ResourcePath`: one
field, named `FullPath` here. -/

/-- Template file names of the HTML output. -/
structure HTMLTemplateFilesType where
  Discovery : JSONstring
  APIRoot : JSONstring
  Collections : JSONstring
  Collection : JSONstring
  Objects : JSONstring
  Manifest : JSONstring
deriving DecidableEq, Repr

/-- HTML output settings of a service. -/
structure HTMLType where
  Enabled : JSONbool
  TemplatePath : String
  FullTemplatePath : String
  TemplateFiles : HTMLTemplateFilesType
deriving DecidableEq, Repr

/-- One discovery service of the configuration. -/
structure DiscoveryServiceType where
  Enabled : Bool
  FullPath : String
  ResourceID : String
  HTML : HTMLType
deriving DecidableEq, Repr

/-- The Collections service embedded in an API root service. -/
structure CollectionsServiceType where
  Enabled : Bool
  FullPath : String
  ResourceIDs : List String
deriving DecidableEq, Repr

/-- One API root service of the configuration. -/
structure APIRootServiceType where
  Enabled : Bool
  FullPath : String
  ResourceID : String
  Collections : CollectionsServiceType
  HTML : HTMLType
deriving DecidableEq, Repr

/-- Global settings read by `main`. -/
structure GlobalType where
  Prefix : String
  Listen : String
  Protocol : String
  DbType : String
  DbFile : String
  TLSKey : String
  TLSCrt : String
deriving DecidableEq, Repr

/-- The discovery server: a flag and its services. -/
structure DiscoveryServerType where
  Enabled : Bool
  Services : List DiscoveryServiceType
deriving DecidableEq, Repr

/-- The API root server: a flag and its services. -/
structure APIRootServerType where
  Enabled : Bool
  Services : List APIRootServiceType
deriving DecidableEq, Repr

/-- The loaded configuration. -/
structure ConfigType where
  Global : GlobalType
  DiscoveryServer : DiscoveryServerType
  APIRootServer : APIRootServerType
  DiscoveryResources : List (String × DiscoveryType)
  APIRootResources : List (String × APIRootType)
  CollectionResources : List (String × CollectionType)
deriving DecidableEq, Repr

/-- A Go map read `m[k]`: the value bound to `k`, or the zero value `z` when `k` is not a
key of `m`. -/
def mapIndex {α : Type} (z : α) : List (String × α) → String → α
  | [], _ => z
  | (k, v) :: m, key => if k = key then v else mapIndex z m key

/-- The read `config.CollectionResources[c]`. -/
def ConfigType.collectionResource (config : ConfigType) (c : String) : CollectionType :=
  mapIndex CollectionType.zero config.CollectionResources c

/-! ## Handlers (`src/lib/server/server.go`)

`main` reads `HTML.Enabled.Value` and `HTML.TemplateFiles.Objects.Value`: the HTML flag and
the template names are tri-state fields, and the constructors read their `Value`. -/

/-- ServerHandlerType: the data a handler needs to serve its resource.  `HandlerType` is
the field `Type` of the source.  `URLPath` is the name `main` uses for the path of the
handler; `server.go` declares the same field as `ResourcePath`. -/
structure ServerHandlerType where
  HandlerType : String
  URLPath : String
  HTMLEnabled : Bool
  HTMLTemplate : String
  CollectionID : String
  RangeMax : Int
  DS : Option Datastorer
  Resource : ResourceValue
deriving DecidableEq, Repr

/-- The Go zero value of `ServerHandlerType` (`var s ServerHandlerType`). -/
def ServerHandlerType.zero : ServerHandlerType :=
  { HandlerType := "", URLPath := "", HTMLEnabled := false, HTMLTemplate := "",
    CollectionID := "", RangeMax := 0, DS := none, Resource := ResourceValue.null }

/-- NewDiscoveryHandler: copies the path and the HTML settings of a discovery service.
`main` also passes the discovery resource, which the handler keeps as its `Resource`. -/
def NewDiscoveryHandler (cfg : DiscoveryServiceType) (resource : DiscoveryType) :
    ServerHandlerType :=
  { ServerHandlerType.zero with
    HandlerType := "Discovery"
    URLPath := cfg.FullPath
    HTMLEnabled := cfg.HTML.Enabled.Value
    HTMLTemplate := cfg.HTML.TemplatePath ++ "/" ++ cfg.HTML.TemplateFiles.Discovery.Value
    Resource := ResourceValue.discovery resource }

/-- NewAPIRootHandler: copies the path and the HTML settings of an API root service.
`main` also passes the API root resource, which the handler keeps as its `Resource`. -/
def NewAPIRootHandler (c : APIRootServiceType) (resource : APIRootType) :
    ServerHandlerType :=
  { ServerHandlerType.zero with
    HandlerType := "API-Root"
    URLPath := c.FullPath
    HTMLEnabled := c.HTML.Enabled.Value
    HTMLTemplate := c.HTML.TemplatePath ++ "/" ++ c.HTML.TemplateFiles.APIRoot.Value
    Resource := ResourceValue.apiRoot resource }

/-- NewCollectionsHandler: copies the path of the Collections service of an API root and
the HTML settings. -/
def NewCollectionsHandler (c : APIRootServiceType) : ServerHandlerType :=
  { ServerHandlerType.zero with
    HandlerType := "Collections"
    URLPath := c.Collections.FullPath
    HTMLEnabled := c.HTML.Enabled.Value
    HTMLTemplate := c.HTML.TemplatePath ++ "/" ++ c.HTML.TemplateFiles.Collections.Value }

/-- NewCollectionHandler: takes the path given by the caller and the HTML settings. -/
def NewCollectionHandler (c : APIRootServiceType) (path : String) : ServerHandlerType :=
  { ServerHandlerType.zero with
    HandlerType := "Collection"
    URLPath := path
    HTMLEnabled := c.HTML.Enabled.Value
    HTMLTemplate := c.HTML.TemplatePath ++ "/" ++ c.HTML.TemplateFiles.Collection.Value }

/-! ## The router (`gorilla/mux`, an external package)

`router.HandleFunc(path, f).Methods("GET")` appends one route to the router.  It has no
failure result and does not look at the routes already present. -/

/-- The seven handler methods that `main` registers. -/
inductive HandlerFunc where
  | DiscoveryHandler
  | APIRootHandler
  | CollectionsHandler
  | CollectionHandler
  | ObjectsServerHandler
  | ObjectsByIDServerHandler
  | ManifestServerHandler
deriving DecidableEq, Repr

/-- One registration: the path template, the handler method, the receiver of the method as
it is when `HandleFunc` is called, and the accepted HTTP methods. -/
structure Route where
  path : String
  handler : HandlerFunc
  srv : ServerHandlerType
  methods : List String
deriving DecidableEq, Repr

/-- The router: its routes in registration order. -/
abbrev Router := List Route

/-- The call `router.HandleFunc(path, srv.f).Methods("GET")`. -/
def Router.HandleFunc (router : Router) (path : String) (f : HandlerFunc)
    (srv : ServerHandlerType) : Router :=
  router ++ [{ path := path, handler := f, srv := srv, methods := ["GET"] }]

/-! ## Service assembly (`src/freetaxii.go`, function `main`) -/

/-- The two variables of `main` that the registration loops update: the router and
`serviceCounter`. -/
structure MainState where
  router : Router
  serviceCounter : Nat
deriving DecidableEq, Repr

/-- The state before the first registration: `mux.NewRouter()` and `serviceCounter := 0`. -/
def MainState.init : MainState := { router := [], serviceCounter := 0 }

/-- Body of the loop over `config.DiscoveryServer.Services` (lines 117-127). -/
def registerDiscoveryService (config : ConfigType) (st : MainState)
    (c : DiscoveryServiceType) : MainState :=
  if c.Enabled == true then
    let ts := NewDiscoveryHandler c
      (mapIndex (DiscoveryType.mk "") config.DiscoveryResources c.ResourceID)
    { router := st.router.HandleFunc c.FullPath HandlerFunc.DiscoveryHandler ts
      serviceCounter := st.serviceCounter + 1 }
  else st

/-- Body of the first loop over `api.Collections.ResourceIDs` (lines 163-170): the
collection is added to the listing when it can be read or written. -/
def addListedCollection (config : ConfigType) (collections : CollectionsType)
    (c : String) : CollectionsType :=
  if (config.collectionResource c).CanRead == true
      || (config.collectionResource c).CanWrite == true then
    let col := config.collectionResource c
    collections.AddCollection col
  else collections

/-- Body of the second loop over `api.Collections.ResourceIDs` (lines 186-239): the
Collection, Objects, ObjectByID and Manifest registrations of one identifier. -/
def registerCollection (config : ConfigType) (ds : Datastorer)
    (api : APIRootServiceType) (collectionsSrv : ServerHandlerType) (st : MainState)
    (c : String) : MainState :=
  let resourceCollectionIDPath :=
    collectionsSrv.URLPath ++ (config.collectionResource c).ID ++ "/"
  let collectionSrv := NewCollectionHandler api resourceCollectionIDPath
  let collectionSrv := { collectionSrv with
    Resource := ResourceValue.collection (config.collectionResource c) }
  let router := st.router.HandleFunc collectionSrv.URLPath
    HandlerFunc.CollectionHandler collectionSrv
  let objectsSrv := { ServerHandlerType.zero with
    URLPath := resourceCollectionIDPath ++ "objects/"
    HTMLEnabled := api.HTML.Enabled.Value
    HTMLTemplate := api.HTML.FullTemplatePath ++ api.HTML.TemplateFiles.Objects.Value
    CollectionID := (config.collectionResource c).ID
    DS := some ds }
  let router := router.HandleFunc objectsSrv.URLPath
    HandlerFunc.ObjectsServerHandler objectsSrv
  let objectsSrv := { objectsSrv with
    URLPath := resourceCollectionIDPath ++ "objects/" ++ "{objectid}/" }
  let router := router.HandleFunc objectsSrv.URLPath
    HandlerFunc.ObjectsByIDServerHandler objectsSrv
  let manifestSrv := { ServerHandlerType.zero with
    URLPath := resourceCollectionIDPath ++ "manifest/"
    HTMLEnabled := api.HTML.Enabled.Value
    HTMLTemplate := api.HTML.FullTemplatePath ++ api.HTML.TemplateFiles.Manifest.Value
    CollectionID := (config.collectionResource c).ID
    DS := some ds }
  let router := router.HandleFunc manifestSrv.URLPath
    HandlerFunc.ManifestServerHandler manifestSrv
  { st with router := router }

/-- The handler of the Collections service of an API root after line 171: the handler of
`NewCollectionsHandler` with the listing as its `Resource`. -/
def collectionsHandlerOf (config : ConfigType) (api : APIRootServiceType) :
    ServerHandlerType :=
  let collectionsSrv := NewCollectionsHandler api
  let collections := api.Collections.ResourceIDs.foldl (addListedCollection config)
    NewCollections
  { collectionsSrv with Resource := ResourceValue.collections collections }

/-- Body of the loop over `config.APIRootServer.Services` (lines 142-241). -/
def registerAPIRootService (config : ConfigType) (ds : Datastorer) (st : MainState)
    (api : APIRootServiceType) : MainState :=
  if api.Enabled == true then
    let ts := NewAPIRootHandler api
      (mapIndex (APIRootType.mk "") config.APIRootResources api.ResourceID)
    let st : MainState :=
      { router := st.router.HandleFunc api.FullPath HandlerFunc.APIRootHandler ts
        serviceCounter := st.serviceCounter + 1 }
    if api.Collections.Enabled == true then
      let collectionsSrv := collectionsHandlerOf config api
      let st := { st with
        router := st.router.HandleFunc collectionsSrv.URLPath
          HandlerFunc.CollectionsHandler collectionsSrv }
      api.Collections.ResourceIDs.foldl
        (registerCollection config ds api collectionsSrv) st
    else st
  else st

/-- The discovery block of `main` (lines 116-128). -/
def registerDiscoveryServer (config : ConfigType) (st : MainState) : MainState :=
  if config.DiscoveryServer.Enabled == true then
    config.DiscoveryServer.Services.foldl (registerDiscoveryService config) st
  else st

/-- The API root block of `main` (lines 140-243). -/
def registerAPIRootServer (config : ConfigType) (ds : Datastorer) (st : MainState) :
    MainState :=
  if config.APIRootServer.Enabled == true then
    config.APIRootServer.Services.foldl (registerAPIRootService config ds) st
  else st

/-- Lines 95-243 of `main`: a new router, then the discovery block, then the API root
block. -/
def registerServices (config : ConfigType) (ds : Datastorer) : MainState :=
  registerAPIRootServer config ds (registerDiscoveryServer config MainState.init)

/-- How `main` ends: a fatal log line (the process exits), or one of the two listeners
started on the assembled router. -/
inductive Outcome where
  | fatal (msg : String)
  | listenAndServe (addr : String) (router : Router)
  | listenAndServeTLS (addr : String) (certFile : String) (keyFile : String)
      (router : Router)
deriving DecidableEq, Repr

/-- Lines 245-292 of `main`: the check of `serviceCounter`, then the choice of listener. -/
def checkAndListen (config : ConfigType) (st : MainState) : Outcome :=
  if st.serviceCounter == 0 then
    Outcome.fatal "No TAXII services defined"
  else if config.Global.Protocol == "http" then
    Outcome.listenAndServe config.Global.Listen st.router
  else if config.Global.Protocol == "https" then
    Outcome.listenAndServeTLS config.Global.Listen ("etc/tls/" ++ config.Global.TLSCrt)
      ("etc/tls/" ++ config.Global.TLSKey) st.router
  else
    Outcome.fatal "No valid protocol was defined in the configuration file"

/-- The function `main` from the loaded configuration on (lines 76-292): the choice of the
datastore, the registrations, the check of `serviceCounter`, the listener.  The
configuration is the value returned without error by `config.New`. -/
def main (config : ConfigType) : Outcome :=
  if config.Global.DbType == "sqlite3" then
    let databaseFilename := config.Global.Prefix ++ config.Global.DbFile
    let ds : Datastorer := { databaseFilename := databaseFilename }
    checkAndListen config (registerServices config ds)
  else
    Outcome.fatal
      "ERROR: unknown database type, or no database type defined in the server global configuration"

/-! ## What each loop body appends to the router -/

/-- The endpoint of a route: the kind of resource served (the handler method) and the
path. -/
def Route.endpoint (r : Route) : HandlerFunc × String := (r.handler, r.path)

/-- The routes one pass of the per-collection loop body registers. -/
def collectionRoutes (config : ConfigType) (ds : Datastorer) (api : APIRootServiceType)
    (collectionsSrv : ServerHandlerType) (c : String) : List Route :=
  (registerCollection config ds api collectionsSrv MainState.init c).router

/-- The routes one pass of the API root loop body registers. -/
def apiRootRoutes (config : ConfigType) (ds : Datastorer) (api : APIRootServiceType) :
    List Route :=
  (registerAPIRootService config ds MainState.init api).router

/-- The routes one pass of the discovery loop body registers. -/
def discoveryRoutes (config : ConfigType) (c : DiscoveryServiceType) : List Route :=
  (registerDiscoveryService config MainState.init c).router


/-! ## Example configurations -/

/-- HTML output switched off. -/
def exampleHTML : HTMLType :=
  { Enabled := JSONbool.zero, TemplatePath := "html", FullTemplatePath := "html/",
    TemplateFiles := ⟨JSONstring.zero, JSONstring.zero, JSONstring.zero, JSONstring.zero,
      JSONstring.zero, JSONstring.zero⟩ }

/-- Global settings: sqlite3 datastore, plain HTTP on port 8000. -/
def exampleGlobal : GlobalType :=
  { Prefix := "", Listen := ":8000", Protocol := "http", DbType := "sqlite3",
    DbFile := "freetaxii.db", TLSKey := "", TLSCrt := "" }

/-- The datastore `main` opens for `exampleGlobal`. -/
def exampleDS : Datastorer := { databaseFilename := "freetaxii.db" }

/-- The API root `/api1/` with its Collections service at `/api1/collections/`. -/
def exampleAPIRoot (enabled collectionsEnabled : Bool) (ids : List String) :
    APIRootServiceType :=
  { Enabled := enabled, FullPath := "/api1/", ResourceID := "api1",
    Collections :=
      { Enabled := collectionsEnabled, FullPath := "/api1/collections/", ResourceIDs := ids },
    HTML := exampleHTML }

/-- A discovery service at `/taxii2/`. -/
def exampleDiscovery (enabled : Bool) : DiscoveryServiceType :=
  { Enabled := enabled, FullPath := "/taxii2/", ResourceID := "discovery1",
    HTML := exampleHTML }

/-- A configuration with the given discovery and API root servers and one known
collection `col-1` with the given capabilities. -/
def exampleConfig (discovery : DiscoveryServerType) (apiRoots : APIRootServerType)
    (canRead canWrite : Bool) : ConfigType :=
  { Global := exampleGlobal
    DiscoveryServer := discovery
    APIRootServer := apiRoots
    DiscoveryResources := [("discovery1", { Title := "Discovery" })]
    APIRootResources := [("api1", { Title := "API 1" })]
    CollectionResources :=
      [("col-1", { ID := "col-1", Title := "Collection 1", CanRead := canRead,
                   CanWrite := canWrite })] }

/-- The scenario of one enabled API root `api1` with the configured identifiers `ids`,
Collections service enabled, discovery disabled. -/
def scenarioConfig (ids : List String) (canRead canWrite : Bool) : ConfigType :=
  exampleConfig { Enabled := false, Services := [] }
    { Enabled := true, Services := [exampleAPIRoot true true ids] } canRead canWrite

/-- The router `main` listens on, when `main` reaches a listener. -/
def Outcome.listeningRouter : Outcome → Option Router
  | Outcome.fatal _ => none
  | Outcome.listenAndServe _ router => some router
  | Outcome.listenAndServeTLS _ _ _ router => some router

/-- Two enabled API roots with the same path `/api1/`, their Collections services
disabled. -/
def twoRootsConfig : ConfigType :=
  exampleConfig { Enabled := false, Services := [] }
    { Enabled := true,
      Services := [exampleAPIRoot true false [], exampleAPIRoot true false []] } true false

/-! ## The registry as the specification describes it -/

/-- The four endpoints below a Collections path `P` for a collection identifier `id`, as
the specification gives them: Collection at `P id /`, Objects at `P id /objects/`,
ObjectByID at `P id /objects/{objectid}/`, Manifest at `P id /manifest/`. -/
def specCollectionEndpoints (P id : String) : List (HandlerFunc × String) :=
  [ (HandlerFunc.CollectionHandler, P ++ id ++ "/"),
    (HandlerFunc.ObjectsServerHandler, P ++ id ++ "/objects/"),
    (HandlerFunc.ObjectsByIDServerHandler, P ++ id ++ "/objects/{objectid}/"),
    (HandlerFunc.ManifestServerHandler, P ++ id ++ "/manifest/") ]

/-- The endpoints of one API root as the specification gives them: nothing for a disabled
root; else one APIRoot endpoint, then, if the Collections service is enabled, one
Collections endpoint followed by the four endpoints of each configured identifier. -/
def specRootEndpoints (config : ConfigType) (api : APIRootServiceType) :
    List (HandlerFunc × String) :=
  if api.Enabled = true then
    (HandlerFunc.APIRootHandler, api.FullPath) ::
      (if api.Collections.Enabled = true then
        (HandlerFunc.CollectionsHandler, api.Collections.FullPath) ::
          api.Collections.ResourceIDs.flatMap
            (fun c => specCollectionEndpoints api.Collections.FullPath
              (config.collectionResource c).ID)
      else [])
  else []

/-- The registry of a configuration without discovery as the specification gives it: the
endpoints of the API roots in declared order. -/
def specRegistry (config : ConfigType) : List (HandlerFunc × String) :=
  if config.APIRootServer.Enabled = true then
    config.APIRootServer.Services.flatMap (specRootEndpoints config)
  else []

/-- The configuration with the capability flags of every known collection replaced by the
flags `f` gives for it; identifiers and titles are kept. -/
def ConfigType.withCapabilities (config : ConfigType)
    (f : String → CollectionType → Bool × Bool) : ConfigType :=
  { config with
    CollectionResources := config.CollectionResources.map
      (fun kv => (kv.1, { kv.2 with CanRead := (f kv.1 kv.2).1,
                                    CanWrite := (f kv.1 kv.2).2 })) }

/-- Modelled from the spec: the configuration loader `config.New` of package `lib/config`
is not among the sources, and it is the loader that fills in the path of the Collections
service of an API root.  The specification gives that path as `<apiRootPath>collections/`:
the path of the API root followed by `collections/`. -/
def APIRootServiceType.withCollectionsPath (api : APIRootServiceType) :
    APIRootServiceType :=
  { api with Collections := { api.Collections with FullPath := api.FullPath ++ "collections/" } }

/-- Modelled from the spec: the configuration as the loader `config.New` (not among the
sources) returns it, every API root with the Collections path
`<apiRootPath>collections/`. -/
def ConfigType.withCollectionsPaths (config : ConfigType) : ConfigType :=
  { config with
    APIRootServer := { config.APIRootServer with
      Services := config.APIRootServer.Services.map
        APIRootServiceType.withCollectionsPath } }

/-! ## `encoding/json` (Go standard library) as far as `UnmarshalJSON` uses it

`data` is the text of the bytes handed to `UnmarshalJSON`, taken as well-formed UTF-8.
`json.Unmarshal` into a `bool` or a `string` accepts one JSON value surrounded by JSON
white space: the matching literal is stored, the literal `null` leaves the variable as it
is, and every other input is an error (a syntax error or a type error; which of the two is
not modelled). -/

/-- The error returned by `json.Unmarshal`. -/
inductive UnmarshalError where
  | invalid
deriving DecidableEq, Repr

/-- The double quote character. -/
def dquote : Char := Char.ofNat 34

/-- The backslash character. -/
def backslash : Char := Char.ofNat 92

/-- JSON white space: space, tab, line feed, carriage return. -/
def isJSONSpace (c : Char) : Bool :=
  c = Char.ofNat 32 || c = Char.ofNat 9 || c = Char.ofNat 10 || c = Char.ofNat 13

/-- The text without the JSON white space before and after it. -/
def trimJSONSpace (cs : List Char) : List Char :=
  ((cs.dropWhile isJSONSpace).reverse.dropWhile isJSONSpace).reverse

/-- The value of a hexadecimal digit. -/
def hexDigit (c : Char) : Option Nat :=
  if 48 ≤ c.toNat ∧ c.toNat ≤ 57 then some (c.toNat - 48)
  else if 97 ≤ c.toNat ∧ c.toNat ≤ 102 then some (c.toNat - 87)
  else if 65 ≤ c.toNat ∧ c.toNat ≤ 70 then some (c.toNat - 55)
  else none

/-- The function `getu4`: the value of the four hexadecimal digits of a text that starts
with a backslash, `u` and four hexadecimal digits; none for any other text. -/
def getu4 (s : List Char) : Option Nat :=
  match s with
  | x1 :: x2 :: a :: b :: c :: d :: _ =>
    if x1 = backslash ∧ x2 = 'u' then
      match hexDigit a, hexDigit b, hexDigit c, hexDigit d with
      | some x, some y, some z, some w => some (((x * 16 + y) * 16 + z) * 16 + w)
      | _, _, _, _ => none
    else none
  | _ => none

/-- The character of a one-letter escape. -/
def simpleEscape (e : Char) : Option Char :=
  if e = dquote then some dquote
  else if e = backslash then some backslash
  else if e = '/' then some '/'
  else if e = 'b' then some (Char.ofNat 8)
  else if e = 'f' then some (Char.ofNat 12)
  else if e = 'n' then some (Char.ofNat 10)
  else if e = 'r' then some (Char.ofNat 13)
  else if e = 't' then some (Char.ofNat 9)
  else none

/-- The Unicode replacement character U+FFFD. -/
def replacementChar : Char := Char.ofNat 65533

/-- The function `utf16.DecodeRune`: the character of a surrogate pair, U+FFFD when the
two values are not a high surrogate followed by a low one. -/
def decodeSurrogates (r1 r2 : Nat) : Char :=
  if 55296 ≤ r1 ∧ r1 < 56320 ∧ 56320 ≤ r2 ∧ r2 < 57344 then
    Char.ofNat ((r1 - 55296) * 1024 + (r2 - 56320) + 65536)
  else replacementChar

/-- The characters of a JSON string literal, read from the character after the opening
quote (`unquote` of `encoding/json`): none when the text is not the rest of one string
literal ending at the last character.  The second argument is the number of characters
of an escape already read that are still to be passed over. -/
def unquoteBody : List Char → Nat → Option (List Char)
  | [], _ => none
  | _ :: rest, skip + 1 => unquoteBody rest skip
  | c :: rest, 0 =>
    if c = dquote then (if rest = [] then some [] else none)
    else if c = backslash then
      match rest.head? with
      | none => none
      | some e =>
        if e = 'u' then
          match getu4 (c :: rest) with
          | none => none
          | some rr =>
            if 55296 ≤ rr ∧ rr < 57344 then
              match getu4 (rest.drop 5) with
              | some rr1 =>
                if decodeSurrogates rr rr1 = replacementChar then
                  (unquoteBody rest 5).map (fun t => replacementChar :: t)
                else
                  (unquoteBody rest 11).map (fun t => decodeSurrogates rr rr1 :: t)
              | none => (unquoteBody rest 5).map (fun t => replacementChar :: t)
            else (unquoteBody rest 5).map (fun t => Char.ofNat rr :: t)
        else
          match simpleEscape e with
          | some ch => (unquoteBody rest 1).map (fun t => ch :: t)
          | none => none
    else if c.toNat < 32 then none
    else (unquoteBody rest 0).map (fun t => c :: t)

/-- The string a text denotes as a JSON string literal surrounded by JSON white space. -/
def jsonStringLiteral (data : String) : Option String :=
  match trimJSONSpace data.data with
  | [] => none
  | c :: body => if c = dquote then (unquoteBody body 0).map String.mk else none

/-- The boolean a text denotes as a JSON boolean surrounded by JSON white space. -/
def jsonBoolLiteral (data : String) : Option Bool :=
  if trimJSONSpace data.data = "true".data then some true
  else if trimJSONSpace data.data = "false".data then some false
  else none

/-- The call `json.Unmarshal(data, &temp)` for a `bool` variable: the new value of `temp`,
or the error. -/
def jsonUnmarshalBool (data : String) (temp : Bool) : Except UnmarshalError Bool :=
  match jsonBoolLiteral data with
  | some b => Except.ok b
  | none =>
    if trimJSONSpace data.data = "null".data then Except.ok temp
    else Except.error UnmarshalError.invalid

/-- The call `json.Unmarshal(data, &temp)` for a `string` variable: the new value of
`temp`, or the error. -/
def jsonUnmarshalString (data : String) (temp : String) : Except UnmarshalError String :=
  match jsonStringLiteral data with
  | some s => Except.ok s
  | none =>
    if trimJSONSpace data.data = "null".data then Except.ok temp
    else Except.error UnmarshalError.invalid

/-! ## `UnmarshalJSON` (`src/internal/config/jsonTypes.go`)

The receiver is updated in place; the functions return the receiver after the call and
the error of the call (`none` for `nil`).  The argument `data` is the text of the bytes
of the source; a byte sequence that is not UTF-8 has no text and is not an input of these
functions. -/

/-- JSONbool.UnmarshalJSON. -/
def JSONbool.UnmarshalJSON (b : JSONbool) (data : String) :
    JSONbool × Option UnmarshalError :=
  let b := { b with Set := true }
  if data = "null" then
    ({ b with Valid := false, Value := false }, none)
  else
    match jsonUnmarshalBool data false with
    | Except.error err => (b, some err)
    | Except.ok temp => ({ b with Value := temp, Valid := true }, none)

/-- JSONstring.UnmarshalJSON. -/
def JSONstring.UnmarshalJSON (s : JSONstring) (data : String) :
    JSONstring × Option UnmarshalError :=
  let s := { s with Set := true }
  if data = "null" then
    ({ s with Valid := false, Value := "" }, none)
  else
    match jsonUnmarshalString data "" with
    | Except.error err => (s, some err)
    | Except.ok temp => ({ s with Value := temp, Valid := true }, none)

/-- A JSON text of a string: the string between double quotes, with the double quote and
the backslash escaped by a backslash and a control character written as `\u00XX`. -/
def jsonQuote (s : String) : String :=
  String.mk (dquote :: (s.data.flatMap (fun c =>
    if c = dquote then [backslash, dquote]
    else if c = backslash then [backslash, backslash]
    else if c.toNat < 32 then
      [backslash, 'u', '0', '0', Nat.digitChar (c.toNat / 16), Nat.digitChar (c.toNat % 16)]
    else [c])) ++ [dquote])

/-! ## Error emitters (`src/internal/handlers/errors.go`)

`http.ResponseWriter` is an interface; a writer is modelled by the calls it has received,
oldest first.  `json.NewEncoder(w)` followed by `SetIndent` and `Encode(e)` hands the
writer the JSON document of `e` with the given indentation; the call is recorded with the
resource `e` itself. -/

/-- The TAXII error resource of `libstix2/resources/taxiierror` (an external package):
the four fields the emitters set. -/
structure TAXIIErrorType where
  Title : String
  Description : String
  ErrorCode : String
  HTTPStatus : String
deriving DecidableEq, Repr

/-- taxiierror.New: an error resource with empty fields. -/
def TAXIIErrorType.New : TAXIIErrorType :=
  { Title := "", Description := "", ErrorCode := "", HTTPStatus := "" }

/-- SetTitle. -/
def TAXIIErrorType.SetTitle (e : TAXIIErrorType) (s : String) : TAXIIErrorType :=
  { e with Title := s }

/-- SetDescription. -/
def TAXIIErrorType.SetDescription (e : TAXIIErrorType) (s : String) : TAXIIErrorType :=
  { e with Description := s }

/-- SetErrorCode. -/
def TAXIIErrorType.SetErrorCode (e : TAXIIErrorType) (s : String) : TAXIIErrorType :=
  { e with ErrorCode := s }

/-- SetHTTPStatus. -/
def TAXIIErrorType.SetHTTPStatus (e : TAXIIErrorType) (s : String) : TAXIIErrorType :=
  { e with HTTPStatus := s }

/-- The media type constants of `libstix2/defs` (an external package) that the emitters
use; the text of the constant is not needed. -/
inductive MediaType where
  | MEDIA_TYPE_TAXII21
deriving DecidableEq, Repr

/-- One call received by a response writer. -/
inductive WriterCall where
  | HeaderSet (key : String) (value : MediaType)
  | WriteHeader (statusCode : Nat)
  | Encode (indentPrefix : String) (indent : String) (e : TAXIIErrorType)
deriving DecidableEq, Repr

/-- A response writer: the calls received so far. -/
abbrev ResponseWriter := List WriterCall

/-- The call `w.Header().Set(key, value)`. -/
def ResponseWriter.HeaderSet (w : ResponseWriter) (key : String) (value : MediaType) :
    ResponseWriter :=
  w ++ [WriterCall.HeaderSet key value]

/-- The call `w.WriteHeader(statusCode)`. -/
def ResponseWriter.WriteHeader (w : ResponseWriter) (statusCode : Nat) : ResponseWriter :=
  w ++ [WriterCall.WriteHeader statusCode]

/-- The JSON stream encoder: its indentation settings. -/
structure Encoder where
  indentPrefix : String
  indent : String
deriving DecidableEq, Repr

/-- json.NewEncoder: no indentation. -/
def NewEncoder : Encoder := { indentPrefix := "", indent := "" }

/-- SetIndent. -/
def Encoder.SetIndent (_j : Encoder) (indentPrefix indent : String) : Encoder :=
  { indentPrefix := indentPrefix, indent := indent }

/-- Encode: the document of `e` is written to the writer of the encoder. -/
def Encoder.Encode (j : Encoder) (w : ResponseWriter) (e : TAXIIErrorType) :
    ResponseWriter :=
  w ++ [WriterCall.Encode j.indentPrefix j.indent e]

/-- http.StatusBadRequest. -/
def StatusBadRequest : Nat := 400

/-- http.StatusUnauthorized. -/
def StatusUnauthorized : Nat := 401

/-- http.StatusNotFound. -/
def StatusNotFound : Nat := 404

/-- http.StatusNotAcceptable. -/
def StatusNotAcceptable : Nat := 406

/-- http.StatusUnsupportedMediaType. -/
def StatusUnsupportedMediaType : Nat := 415

/-- The receiver type of the emitters.  Its declaration is not among the sources; the
fields are those of `ServerHandlerType` of `lib/server`. -/
abbrev ServerHandler := ServerHandlerType

/-- sendUnauthenticatedError. -/
def sendUnauthenticatedError (_s : ServerHandler) (w : ResponseWriter) : ResponseWriter :=
  let j := NewEncoder
  let w := w.HeaderSet "Content-Type" MediaType.MEDIA_TYPE_TAXII21
  let w := w.WriteHeader StatusUnauthorized
  let e := TAXIIErrorType.New
  let e := e.SetTitle "Authentication Required"
  let e := e.SetDescription "The requested resources requires authentication."
  let e := e.SetErrorCode "401"
  let e := e.SetHTTPStatus "401 Unauthorized"
  let j := j.SetIndent "" "    "
  j.Encode w e

/-- sendNotAcceptableError. -/
def sendNotAcceptableError (_s : ServerHandler) (w : ResponseWriter) : ResponseWriter :=
  let j := NewEncoder
  let w := w.HeaderSet "Content-Type" MediaType.MEDIA_TYPE_TAXII21
  let w := w.WriteHeader StatusNotAcceptable
  let e := TAXIIErrorType.New
  let e := e.SetTitle "Wrong Media Type"
  let e := e.SetDescription
    "The requested media type in the accept header is not supported."
  let e := e.SetErrorCode "406"
  let e := e.SetHTTPStatus "406 Not Acceptable"
  let j := j.SetIndent "" "    "
  j.Encode w e

/-- sendUnsupportedMediaTypeError. -/
def sendUnsupportedMediaTypeError (_s : ServerHandler) (w : ResponseWriter) :
    ResponseWriter :=
  let j := NewEncoder
  let w := w.HeaderSet "Content-Type" MediaType.MEDIA_TYPE_TAXII21
  let w := w.WriteHeader StatusUnsupportedMediaType
  let e := TAXIIErrorType.New
  let e := e.SetTitle "Wrong Media Type"
  let e := e.SetDescription
    "The requested media type in the content-type header is not supported."
  let e := e.SetErrorCode "415"
  let e := e.SetHTTPStatus "415 Unsupported Media Type"
  let j := j.SetIndent "" "    "
  j.Encode w e

/-- sendGetObjectsError. -/
def sendGetObjectsError (_s : ServerHandler) (w : ResponseWriter) : ResponseWriter :=
  let j := NewEncoder
  let w := w.HeaderSet "Content-Type" MediaType.MEDIA_TYPE_TAXII21
  let w := w.WriteHeader StatusNotFound
  let e := TAXIIErrorType.New
  let e := e.SetTitle "Get Objects Error"
  let e := e.SetDescription "The request for objects caused an error."
  let e := e.SetErrorCode "404"
  let e := e.SetHTTPStatus "404 Not Found"
  let j := j.SetIndent "" "    "
  j.Encode w e

/-- sendParseObjectsError. -/
def sendParseObjectsError (_s : ServerHandler) (w : ResponseWriter) : ResponseWriter :=
  let j := NewEncoder
  let w := w.HeaderSet "Content-Type" MediaType.MEDIA_TYPE_TAXII21
  let w := w.WriteHeader StatusBadRequest
  let e := TAXIIErrorType.New
  let e := e.SetTitle "Post Objects Error"
  let e := e.SetDescription "The request to post objects caused an error."
  let e := e.SetErrorCode "400"
  let e := e.SetHTTPStatus "400 Bad Request"
  let j := j.SetIndent "" "    "
  j.Encode w e

/-- sendStatusNotFound. -/
def sendStatusNotFound (_s : ServerHandler) (w : ResponseWriter) : ResponseWriter :=
  let j := NewEncoder
  let w := w.HeaderSet "Content-Type" MediaType.MEDIA_TYPE_TAXII21
  let w := w.WriteHeader StatusNotFound
  let e := TAXIIErrorType.New
  let e := e.SetTitle "No Objects Found"
  let e := e.SetDescription "There were no objects returned matching the request."
  let e := e.SetErrorCode "404"
  let e := e.SetHTTPStatus "404 Not Found"
  let j := j.SetIndent "" "    "
  j.Encode w e

/-- The error kinds of the specification. -/
inductive ErrorKind where
  | Unauthenticated
  | NotAcceptable
  | UnsupportedMediaType
  | GetObjectsError
  | ParseObjectsError
  | NotFound
deriving DecidableEq, Repr

/-- The table of the specification: the HTTP status of each error kind. -/
def specStatus : ErrorKind → Nat
  | ErrorKind.Unauthenticated => 401
  | ErrorKind.NotAcceptable => 406
  | ErrorKind.UnsupportedMediaType => 415
  | ErrorKind.GetObjectsError => 404
  | ErrorKind.ParseObjectsError => 400
  | ErrorKind.NotFound => 404

/-- The emitter of each error kind. -/
def emit : ErrorKind → ServerHandler → ResponseWriter → ResponseWriter
  | ErrorKind.Unauthenticated => sendUnauthenticatedError
  | ErrorKind.NotAcceptable => sendNotAcceptableError
  | ErrorKind.UnsupportedMediaType => sendUnsupportedMediaTypeError
  | ErrorKind.GetObjectsError => sendGetObjectsError
  | ErrorKind.ParseObjectsError => sendParseObjectsError
  | ErrorKind.NotFound => sendStatusNotFound

/-! ## The configuration loader (`config.New` of package `lib/config`)

The loader is called at lines 51-54 of `main`; its code is not among the sources. -/

/-- The error of the configuration loader, by the three rejections of the
specification. -/
inductive ConfigError where
  | unknownCollection (id : String)
  | unsupportedDatabase (dbType : String)
  | unsupportedProtocol (protocol : String)
deriving DecidableEq, Repr

/-- The identifiers of the known collection set: the keys of `CollectionResources`. -/
def ConfigType.knownCollectionIDs (config : ConfigType) : List String :=
  config.CollectionResources.map Prod.fst

/-- The identifiers in the collection lists of the API roots, in declared order, that are
not in the known collection set. -/
def ConfigType.unknownCollectionIDs (config : ConfigType) : List String :=
  (config.APIRootServer.Services.flatMap (fun api => api.Collections.ResourceIDs)).filter
    (fun c => decide (c ∉ config.knownCollectionIDs))

/-- Modelled from the spec: the configuration loader `config.New` (package `lib/config`,
not among the sources), applied to the configuration as written in the source file.  The
specification has it reject a configuration where a referenced collection identifier in
an API root's collection list does not exist in the known collection set, where the
storage backend selector names an unsupported backend, or where the transport protocol
is not one of the supported values; `main` supports the backend `sqlite3` and the
protocols `http` and `https`.  An accepted configuration is returned with the Collections
paths `<apiRootPath>collections/`. -/
def config.New (raw : ConfigType) : Except ConfigError ConfigType :=
  match raw.unknownCollectionIDs with
  | c :: _ => Except.error (ConfigError.unknownCollection c)
  | [] =>
    if raw.Global.DbType ≠ "sqlite3" then
      Except.error (ConfigError.unsupportedDatabase raw.Global.DbType)
    else if raw.Global.Protocol ≠ "http" ∧ raw.Global.Protocol ≠ "https" then
      Except.error (ConfigError.unsupportedProtocol raw.Global.Protocol)
    else Except.ok raw.withCollectionsPaths

/-- The function `main` from the call of the loader on (lines 51-292): a configuration
error is fatal (`logger.Fatalln(configError)`), an accepted configuration is handed to the
rest of `main`. -/
def mainWithLoader (raw : ConfigType) : Except ConfigError Outcome :=
  match config.New raw with
  | Except.error configError => Except.error configError
  | Except.ok config => Except.ok (main config)

/-- One enabled API root `/api1/` that lists the known identifier `col-1` and the
identifier `col-9`, which is not in the collection set. -/
def unknownIDConfig : ConfigType :=
  scenarioConfig ["col-1", "col-9"] true false
/-! ## Facts about the registration loops -/

/-- A loop whose body appends `g x` to the router and adds `k x` to the counter appends
the concatenation of the `g x` and adds the sum of the `k x`. -/
theorem foldl_mainState {α : Type} (f : MainState → α → MainState) (g : α → List Route)
    (k : α → Nat)
    (hf : ∀ st x, f st x =
      { router := st.router ++ g x, serviceCounter := st.serviceCounter + k x })
    (xs : List α) (st : MainState) :
    xs.foldl f st =
      { router := st.router ++ xs.flatMap g
        serviceCounter := st.serviceCounter + (xs.map k).sum } := by
  induction xs generalizing st with
  | nil => simp
  | cons x xs ih =>
    rw [List.foldl_cons, ih, hf]
    simp [List.append_assoc, Nat.add_assoc]

theorem registerCollection_eq (config : ConfigType) (ds : Datastorer)
    (api : APIRootServiceType) (collectionsSrv : ServerHandlerType) (st : MainState)
    (c : String) :
    registerCollection config ds api collectionsSrv st c =
      { router := st.router ++ collectionRoutes config ds api collectionsSrv c
        serviceCounter := st.serviceCounter + 0 } := by
  simp [registerCollection, collectionRoutes, Router.HandleFunc, MainState.init]

theorem registerDiscoveryService_eq (config : ConfigType) (st : MainState)
    (c : DiscoveryServiceType) :
    registerDiscoveryService config st c =
      { router := st.router ++ discoveryRoutes config c
        serviceCounter := st.serviceCounter + (if c.Enabled = true then 1 else 0) } := by
  by_cases h : c.Enabled = true <;>
    simp [registerDiscoveryService, discoveryRoutes, Router.HandleFunc, MainState.init, h]

theorem registerAPIRootService_eq (config : ConfigType) (ds : Datastorer) (st : MainState)
    (api : APIRootServiceType) :
    registerAPIRootService config ds st api =
      { router := st.router ++ apiRootRoutes config ds api
        serviceCounter := st.serviceCounter + (if api.Enabled = true then 1 else 0) } := by
  by_cases h : api.Enabled = true <;> by_cases hc : api.Collections.Enabled = true <;>
    simp [registerAPIRootService, apiRootRoutes, Router.HandleFunc, MainState.init, h, hc,
      foldl_mainState _ _ _ (registerCollection_eq config ds api _)]

/-- The routes of one pass of the per-collection loop body, spelled out. -/
theorem collectionRoutes_endpoints (config : ConfigType) (ds : Datastorer)
    (api : APIRootServiceType) (collectionsSrv : ServerHandlerType) (c : String) :
    (collectionRoutes config ds api collectionsSrv c).map Route.endpoint =
      [ (HandlerFunc.CollectionHandler,
          collectionsSrv.URLPath ++ (config.collectionResource c).ID ++ "/"),
        (HandlerFunc.ObjectsServerHandler,
          collectionsSrv.URLPath ++ (config.collectionResource c).ID ++ "/" ++ "objects/"),
        (HandlerFunc.ObjectsByIDServerHandler,
          collectionsSrv.URLPath ++ (config.collectionResource c).ID ++ "/" ++ "objects/"
            ++ "{objectid}/"),
        (HandlerFunc.ManifestServerHandler,
          collectionsSrv.URLPath ++ (config.collectionResource c).ID ++ "/"
            ++ "manifest/") ] := by
  simp [collectionRoutes, registerCollection, Router.HandleFunc, MainState.init,
    Route.endpoint, NewCollectionHandler]

/-- The routes of one pass of the API root loop body, spelled out. -/
theorem apiRootRoutes_eq (config : ConfigType) (ds : Datastorer)
    (api : APIRootServiceType) :
    apiRootRoutes config ds api =
      if api.Enabled = true then
        { path := api.FullPath, handler := HandlerFunc.APIRootHandler,
          srv := NewAPIRootHandler api
            (mapIndex (APIRootType.mk "") config.APIRootResources api.ResourceID),
          methods := ["GET"] } ::
        (if api.Collections.Enabled = true then
          { path := api.Collections.FullPath, handler := HandlerFunc.CollectionsHandler,
            srv := collectionsHandlerOf config api, methods := ["GET"] } ::
          api.Collections.ResourceIDs.flatMap
            (collectionRoutes config ds api (collectionsHandlerOf config api))
        else [])
      else [] := by
  by_cases h : api.Enabled = true <;> by_cases hc : api.Collections.Enabled = true <;>
    simp [registerAPIRootService, apiRootRoutes, Router.HandleFunc, MainState.init, h, hc,
      foldl_mainState _ _ _ (registerCollection_eq config ds api _)]
  simp [collectionsHandlerOf, NewCollectionsHandler]

/-- The routes of one pass of the discovery loop body, spelled out. -/
theorem discoveryRoutes_eq (config : ConfigType) (c : DiscoveryServiceType) :
    discoveryRoutes config c =
      if c.Enabled = true then
        [{ path := c.FullPath, handler := HandlerFunc.DiscoveryHandler,
           srv := NewDiscoveryHandler c
             (mapIndex (DiscoveryType.mk "") config.DiscoveryResources c.ResourceID),
           methods := ["GET"] }]
      else [] := by
  by_cases h : c.Enabled = true <;>
    simp [registerDiscoveryService, discoveryRoutes, Router.HandleFunc, MainState.init, h]

/-- The router after the registrations: the discovery routes, then the routes of the API
roots, each in the order of the configuration. -/
theorem registerServices_router (config : ConfigType) (ds : Datastorer) :
    (registerServices config ds).router =
      (if config.DiscoveryServer.Enabled = true then
        config.DiscoveryServer.Services.flatMap (discoveryRoutes config) else []) ++
      (if config.APIRootServer.Enabled = true then
        config.APIRootServer.Services.flatMap (apiRootRoutes config ds) else []) := by
  by_cases hd : config.DiscoveryServer.Enabled = true <;>
  by_cases ha : config.APIRootServer.Enabled = true <;>
    simp [registerServices, registerAPIRootServer, registerDiscoveryServer, hd, ha, MainState.init,
      foldl_mainState _ _ _ (registerDiscoveryService_eq config),
      foldl_mainState _ _ _ (registerAPIRootService_eq config ds)]

/-- The counter after the registrations: the number of enabled discovery services (when
the discovery server is enabled) plus the number of enabled API roots (when the API root
server is enabled). -/
theorem registerServices_serviceCounter (config : ConfigType) (ds : Datastorer) :
    (registerServices config ds).serviceCounter =
      (if config.DiscoveryServer.Enabled = true then
        (config.DiscoveryServer.Services.map
          (fun c => if c.Enabled = true then 1 else 0)).sum else 0) +
      (if config.APIRootServer.Enabled = true then
        (config.APIRootServer.Services.map
          (fun api => if api.Enabled = true then 1 else 0)).sum else 0) := by
  by_cases hd : config.DiscoveryServer.Enabled = true <;>
  by_cases ha : config.APIRootServer.Enabled = true <;>
    simp [registerServices, registerAPIRootServer, registerDiscoveryServer, hd, ha, MainState.init,
      foldl_mainState _ _ _ (registerDiscoveryService_eq config),
      foldl_mainState _ _ _ (registerAPIRootService_eq config ds)]

/-! ## Auxiliary facts about the loops -/

/-- The first loop over `ResourceIDs` keeps, in order, the collections that can be read or
written. -/
theorem foldl_addListedCollection (config : ConfigType) (ids : List String)
    (acc : CollectionsType) :
    ids.foldl (addListedCollection config) acc =
      { Collections := acc.Collections ++
          (ids.filter (fun c => (config.collectionResource c).CanRead
            || (config.collectionResource c).CanWrite)).map config.collectionResource } := by
  induction ids generalizing acc with
  | nil => simp
  | cons c ids ih =>
    rw [List.foldl_cons, ih]
    by_cases h : ((config.collectionResource c).CanRead
        || (config.collectionResource c).CanWrite) = true
    · have h1 : addListedCollection config acc c =
          acc.AddCollection (config.collectionResource c) := by
        simp only [addListedCollection, beq_true]
        rw [if_pos h]
      rw [h1]
      simp [CollectionsType.AddCollection, List.filter_cons, h]
    · have h1 : addListedCollection config acc c = acc := by
        simp only [addListedCollection, beq_true]
        rw [if_neg h]
      rw [h1]
      simp [List.filter_cons, h]

/-- The listing bound to the Collections handler of an API root. -/
theorem collectionsHandlerOf_Resource (config : ConfigType) (api : APIRootServiceType) :
    (collectionsHandlerOf config api).Resource =
      ResourceValue.collections
        { Collections :=
            (api.Collections.ResourceIDs.filter
              (fun c => (config.collectionResource c).CanRead
                || (config.collectionResource c).CanWrite)).map
              config.collectionResource } := by
  simp [collectionsHandlerOf, foldl_addListedCollection, NewCollections]

theorem collectionsHandlerOf_URLPath (config : ConfigType) (api : APIRootServiceType) :
    (collectionsHandlerOf config api).URLPath = api.Collections.FullPath := by
  simp [collectionsHandlerOf, NewCollectionsHandler]

/-- The routes of one API root pass are part of the router when the root is one of the
services of an enabled API root server. -/
theorem apiRootRoutes_subset (config : ConfigType) (ds : Datastorer)
    (api : APIRootServiceType) (hs : config.APIRootServer.Enabled = true)
    (hmem : api ∈ config.APIRootServer.Services) :
    ∀ r ∈ apiRootRoutes config ds api, r ∈ (registerServices config ds).router := by
  intro r hr
  rw [registerServices_router, if_pos hs]
  exact List.mem_append_right _ (List.mem_flatMap.mpr ⟨api, hmem, hr⟩)

/-- The handler of a route registered by a per-collection pass is never the discovery,
API root or Collections handler. -/
theorem collectionRoutes_handler (config : ConfigType) (ds : Datastorer)
    (api : APIRootServiceType) (collectionsSrv : ServerHandlerType) (c : String)
    (r : Route) (hr : r ∈ collectionRoutes config ds api collectionsSrv c) :
    r.handler = HandlerFunc.CollectionHandler ∨ r.handler = HandlerFunc.ObjectsServerHandler ∨
      r.handler = HandlerFunc.ObjectsByIDServerHandler ∨
      r.handler = HandlerFunc.ManifestServerHandler := by
  have h := collectionRoutes_endpoints config ds api collectionsSrv c
  have hm : r.endpoint ∈ (collectionRoutes config ds api collectionsSrv c).map
      Route.endpoint := List.mem_map_of_mem _ hr
  rw [h] at hm
  simp only [List.mem_cons, List.mem_singleton, List.not_mem_nil, or_false, Route.endpoint,
    Prod.mk.injEq] at hm
  rcases hm with h | h | h | h
  · exact Or.inl h.1
  · exact Or.inr (Or.inl h.1)
  · exact Or.inr (Or.inr (Or.inl h.1))
  · exact Or.inr (Or.inr (Or.inr h.1))

/-- A loop registers nothing exactly when it counts nothing, when this holds for each
pass. -/
theorem sum_eq_zero_iff_flatMap_nil {α : Type} (k : α → Nat) (g : α → List Route)
    (h : ∀ x, k x = 0 ↔ g x = []) (xs : List α) :
    (xs.map k).sum = 0 ↔ xs.flatMap g = [] := by
  induction xs with
  | nil => simp
  | cons x xs ih =>
    simp only [List.map_cons, List.sum_cons, List.flatMap_cons, List.append_eq_nil,
      Nat.add_eq_zero, h x, ih]

/-- The counter is 0 exactly when the router is empty. -/
theorem serviceCounter_eq_zero_iff (config : ConfigType) (ds : Datastorer) :
    (registerServices config ds).serviceCounter = 0 ↔ (registerServices config ds).router = [] := by
  rw [registerServices_serviceCounter, registerServices_router, Nat.add_eq_zero,
    List.append_eq_nil]
  have h1 : ∀ c : DiscoveryServiceType,
      (if c.Enabled = true then 1 else 0) = 0 ↔ discoveryRoutes config c = [] := by
    intro c
    rw [discoveryRoutes_eq]
    by_cases h : c.Enabled = true <;> simp [h]
  have h2 : ∀ api : APIRootServiceType,
      (if api.Enabled = true then 1 else 0) = 0 ↔ apiRootRoutes config ds api = [] := by
    intro api
    rw [apiRootRoutes_eq]
    by_cases h : api.Enabled = true <;> simp [h]
  by_cases hd : config.DiscoveryServer.Enabled = true <;>
  by_cases ha : config.APIRootServer.Enabled = true <;>
    simp [hd, ha, sum_eq_zero_iff_flatMap_nil _ _ h1, sum_eq_zero_iff_flatMap_nil _ _ h2]

/-- With a supported database type and a supported protocol, `main` listens on the
assembled router as soon as the router is not empty. -/
theorem main_listens (config : ConfigType) (hdb : config.Global.DbType = "sqlite3")
    (hp : config.Global.Protocol = "http" ∨ config.Global.Protocol = "https")
    (hne : (registerServices config
      { databaseFilename := config.Global.Prefix ++ config.Global.DbFile }).router ≠ []) :
    (main config).listeningRouter = some (registerServices config
      { databaseFilename := config.Global.Prefix ++ config.Global.DbFile }).router := by
  have h0 : (registerServices config
      { databaseFilename := config.Global.Prefix ++ config.Global.DbFile }).serviceCounter
      ≠ 0 := fun h => hne ((serviceCounter_eq_zero_iff config _).mp h)
  unfold main checkAndListen
  rcases hp with hp | hp
  · simp [hdb, hp, h0, Outcome.listeningRouter]
  · simp [hdb, hp, h0, Outcome.listeningRouter]

/-- The first elements of the lists of a concatenation form a sublist of it. -/
theorem map_heads_sublist_flatMap {α β : Type} (p : α → Bool) (g : α → β)
    (h : α → List β) (hh : ∀ x, p x = true → ∃ t, h x = g x :: t) (xs : List α) :
    List.Sublist ((xs.filter p).map g) (xs.flatMap h) := by
  induction xs with
  | nil => simp
  | cons x xs ih =>
    rw [List.flatMap_cons]
    by_cases hp : p x = true
    · obtain ⟨t, ht⟩ := hh x hp
      rw [List.filter_cons_of_pos hp, List.map_cons, ht, List.cons_append]
      exact List.Sublist.cons₂ _ (ih.trans (List.sublist_append_right t _))
    · rw [List.filter_cons_of_neg hp]
      exact ih.trans (List.sublist_append_right _ _)

/-- The paths of the routes of one API root pass are a sublist of the paths of the
router. -/
theorem apiRootRoutes_paths_sublist (config : ConfigType) (ds : Datastorer)
    (api : APIRootServiceType) (hs : config.APIRootServer.Enabled = true)
    (hmem : api ∈ config.APIRootServer.Services) :
    List.Sublist ((apiRootRoutes config ds api).map Route.path)
      ((registerServices config ds).router.map Route.path) := by
  rw [registerServices_router, if_pos hs]
  refine List.Sublist.map _ ?_
  refine List.Sublist.trans ?_ (List.sublist_append_right _ _)
  exact List.sublist_flatten_of_mem (List.mem_map_of_mem _ hmem)

/-- The paths of the enabled API roots are a sublist of the paths of the router. -/
theorem enabled_root_paths_sublist (config : ConfigType) (ds : Datastorer)
    (hs : config.APIRootServer.Enabled = true) :
    List.Sublist
      ((config.APIRootServer.Services.filter (fun api => api.Enabled)).map
        (fun api => api.FullPath))
      ((registerServices config ds).router.map Route.path) := by
  rw [registerServices_router, if_pos hs, List.map_append, List.map_flatMap]
  refine List.Sublist.trans ?_ (List.sublist_append_right _ _)
  refine map_heads_sublist_flatMap _ _ _ ?_ _
  intro api he
  rw [apiRootRoutes_eq, if_pos he]
  exact ⟨_, rfl⟩

/-- The Collection paths of the identifiers of an enabled root with its Collections
service enabled are a sublist of the paths of the router. -/
theorem collection_paths_sublist (config : ConfigType) (ds : Datastorer)
    (api : APIRootServiceType) (hs : config.APIRootServer.Enabled = true)
    (hmem : api ∈ config.APIRootServer.Services) (he : api.Enabled = true)
    (hc : api.Collections.Enabled = true) :
    List.Sublist
      (api.Collections.ResourceIDs.map
        (fun c => api.Collections.FullPath ++ (config.collectionResource c).ID ++ "/"))
      ((registerServices config ds).router.map Route.path) := by
  refine List.Sublist.trans ?_ (apiRootRoutes_paths_sublist config ds api hs hmem)
  rw [apiRootRoutes_eq, if_pos he, if_pos hc, List.map_cons, List.map_cons, List.map_flatMap]
  refine List.Sublist.trans ?_ (List.sublist_cons_self _ _)
  refine List.Sublist.trans ?_ (List.sublist_cons_self _ _)
  have h := map_heads_sublist_flatMap (fun _ : String => true)
    (fun c => api.Collections.FullPath ++ (config.collectionResource c).ID ++ "/")
    (fun c => (collectionRoutes config ds api (collectionsHandlerOf config api) c).map
      Route.path) ?_ api.Collections.ResourceIDs
  · simpa using h
  · intro c _
    have h4 := congrArg (List.map Prod.snd)
      (collectionRoutes_endpoints config ds api (collectionsHandlerOf config api) c)
    rw [List.map_map] at h4
    have h5 : (Prod.snd ∘ Route.endpoint) = Route.path := rfl
    rw [h5, collectionsHandlerOf_URLPath] at h4
    show ∃ t, List.map Route.path
      (collectionRoutes config ds api (collectionsHandlerOf config api) c) = _ :: t
    rw [h4]
    exact ⟨_, rfl⟩

theorem slash_objects (s : String) : s ++ "/" ++ "objects/" = s ++ "/objects/" := by
  rw [String.append_assoc]
  rfl

theorem slash_objects_id (s : String) :
    s ++ "/" ++ "objects/" ++ "{objectid}/" = s ++ "/objects/{objectid}/" := by
  rw [String.append_assoc, String.append_assoc]
  rfl

theorem slash_manifest (s : String) : s ++ "/" ++ "manifest/" = s ++ "/manifest/" := by
  rw [String.append_assoc]
  rfl

/-- The endpoints of one per-collection pass are the four endpoints of the
specification. -/
theorem collectionRoutes_spec (config : ConfigType) (ds : Datastorer)
    (api : APIRootServiceType) (c : String) :
    (collectionRoutes config ds api (collectionsHandlerOf config api) c).map
        Route.endpoint =
      specCollectionEndpoints api.Collections.FullPath (config.collectionResource c).ID := by
  rw [collectionRoutes_endpoints, collectionsHandlerOf_URLPath, slash_objects_id,
    slash_objects, slash_manifest]
  rfl

/-- The endpoints of one API root pass are the endpoints of the specification. -/
theorem apiRootRoutes_endpoints (config : ConfigType) (ds : Datastorer)
    (api : APIRootServiceType) :
    (apiRootRoutes config ds api).map Route.endpoint = specRootEndpoints config api := by
  rw [apiRootRoutes_eq, specRootEndpoints]
  by_cases he : api.Enabled = true
  · by_cases hc : api.Collections.Enabled = true
    · rw [if_pos he, if_pos hc, if_pos he, if_pos hc, List.map_cons, List.map_cons,
        List.map_flatMap]
      simp only [collectionRoutes_spec]
      rfl
    · rw [if_pos he, if_neg hc, if_pos he, if_neg hc]
      rfl
  · rw [if_neg he, if_neg he]
    rfl

/-- The endpoints of the router: those of the enabled discovery services, then those of
the API roots. -/
theorem registerServices_endpoints (config : ConfigType) (ds : Datastorer) :
    (registerServices config ds).router.map Route.endpoint =
      (if config.DiscoveryServer.Enabled = true then
        (config.DiscoveryServer.Services.filter (fun c => c.Enabled)).map
          (fun c => (HandlerFunc.DiscoveryHandler, c.FullPath)) else []) ++
      specRegistry config := by
  rw [registerServices_router, List.map_append, specRegistry]
  congr 1
  · by_cases hd : config.DiscoveryServer.Enabled = true
    · rw [if_pos hd, if_pos hd, List.map_flatMap]
      induction config.DiscoveryServer.Services with
      | nil => rfl
      | cons c cs ih =>
        rw [List.flatMap_cons, ih, discoveryRoutes_eq]
        by_cases he : c.Enabled = true
        · rw [if_pos he, List.filter_cons_of_pos he]
          rfl
        · rw [if_neg he, List.filter_cons_of_neg he]
          rfl
    · rw [if_neg hd, if_neg hd]
      rfl
  · by_cases ha : config.APIRootServer.Enabled = true
    · rw [if_pos ha, if_pos ha, List.map_flatMap]
      simp only [apiRootRoutes_endpoints]
    · rw [if_neg ha, if_neg ha]
      rfl

/-- A map read after a change of the capability flags gives the same identifier. -/
theorem withCapabilities_ID (config : ConfigType)
    (f : String → CollectionType → Bool × Bool) (c : String) :
    ((config.withCapabilities f).collectionResource c).ID =
      (config.collectionResource c).ID := by
  unfold ConfigType.collectionResource ConfigType.withCapabilities
  simp only
  induction config.CollectionResources with
  | nil => rfl
  | cons kv m ih =>
    obtain ⟨k, v⟩ := kv
    simp only [List.map_cons, mapIndex]
    by_cases h : k = c
    · rw [if_pos h, if_pos h]
    · rw [if_neg h, if_neg h]
      exact ih

/-- The endpoints of an API root do not depend on the capability flags. -/
theorem specRootEndpoints_withCapabilities (config : ConfigType)
    (f : String → CollectionType → Bool × Bool) (api : APIRootServiceType) :
    specRootEndpoints (config.withCapabilities f) api = specRootEndpoints config api := by
  unfold specRootEndpoints
  simp only [withCapabilities_ID]

/-- The handler registered with the Collections route of an API root pass. -/
theorem collections_route_srv (config : ConfigType) (ds : Datastorer)
    (api : APIRootServiceType) (r : Route) (hr : r ∈ apiRootRoutes config ds api)
    (hh : r.handler = HandlerFunc.CollectionsHandler) :
    api.Enabled = true ∧ api.Collections.Enabled = true ∧
      r.path = api.Collections.FullPath ∧ r.srv = collectionsHandlerOf config api := by
  rw [apiRootRoutes_eq] at hr
  by_cases he : api.Enabled = true
  · by_cases hc : api.Collections.Enabled = true
    · rw [if_pos he, if_pos hc, List.mem_cons, List.mem_cons] at hr
      rcases hr with hr | hr | hr
      · rw [hr] at hh
        simp at hh
      · rw [hr]
        exact ⟨he, hc, rfl, rfl⟩
      · rw [List.mem_flatMap] at hr
        obtain ⟨c, _, hrc⟩ := hr
        rcases collectionRoutes_handler config ds api _ c r hrc with h | h | h | h <;>
          rw [h] at hh <;> simp at hh
    · rw [if_pos he, if_neg hc, List.mem_singleton] at hr
      rw [hr] at hh
      simp at hh
  · rw [if_neg he] at hr
    exact absurd hr (List.not_mem_nil _)

/-- The endpoints of a root of an enabled API root server are endpoints of the router. -/
theorem specRootEndpoints_subset (config : ConfigType) (ds : Datastorer)
    (api : APIRootServiceType) (hs : config.APIRootServer.Enabled = true)
    (hmem : api ∈ config.APIRootServer.Services) :
    ∀ e ∈ specRootEndpoints config api,
      e ∈ (registerServices config ds).router.map Route.endpoint := by
  intro e he
  rw [registerServices_endpoints, specRegistry, if_pos hs]
  exact List.mem_append_right _ (List.mem_flatMap.mpr ⟨api, hmem, he⟩)

/-- Every path below a Collections path `P` starts with `P`, and the Collection path is
a prefix of the Objects, ObjectByID and Manifest paths. -/
theorem specCollectionEndpoints_below (P id : String) :
    ∀ e ∈ specCollectionEndpoints P id,
      List.IsPrefix P.data e.2.data ∧ List.IsPrefix (P ++ id ++ "/").data e.2.data := by
  intro e he
  simp only [specCollectionEndpoints, List.mem_cons, List.mem_singleton, List.not_mem_nil,
    or_false] at he
  rcases he with h | h | h | h <;> rw [h] <;> simp only
  · exact ⟨⟨id.data ++ "/".data, by simp [List.append_assoc]⟩, List.prefix_refl _⟩
  · rw [← slash_objects]
    exact ⟨⟨id.data ++ "/".data ++ "objects/".data, by simp [List.append_assoc]⟩,
      ⟨"objects/".data, by simp⟩⟩
  · rw [← slash_objects_id]
    exact ⟨⟨id.data ++ "/".data ++ "objects/".data ++ "{objectid}/".data,
        by simp [List.append_assoc]⟩,
      ⟨"objects/".data ++ "{objectid}/".data, by simp [List.append_assoc]⟩⟩
  · rw [← slash_manifest]
    exact ⟨⟨id.data ++ "/".data ++ "manifest/".data, by simp [List.append_assoc]⟩,
      ⟨"manifest/".data, by simp⟩⟩

/-- With the Collections path `<apiRootPath>collections/`, every endpoint of an API root
has the path of the root as a prefix. -/
theorem specRootEndpoints_below (config : ConfigType) (api : APIRootServiceType)
    (hpath : api.Collections.FullPath = api.FullPath ++ "collections/") :
    ∀ e ∈ specRootEndpoints config api, List.IsPrefix api.FullPath.data e.2.data := by
  have hP : List.IsPrefix api.FullPath.data api.Collections.FullPath.data := by
    rw [hpath]
    exact ⟨"collections/".data, by simp⟩
  intro e he
  unfold specRootEndpoints at he
  by_cases h1 : api.Enabled = true
  · by_cases h2 : api.Collections.Enabled = true
    · rw [if_pos h1, if_pos h2, List.mem_cons, List.mem_cons, List.mem_flatMap] at he
      rcases he with h | h | ⟨c, _, h⟩
      · rw [h]
      · rw [h]
        exact hP
      · exact hP.trans (specCollectionEndpoints_below _ _ e h).1
    · rw [if_pos h1, if_neg h2, List.mem_singleton] at he
      rw [he]
  · rw [if_neg h1] at he
    exact absurd he (List.not_mem_nil _)

/-- The six paths of a root `R` with the Collections path `R collections/` and one
collection identifier are pairwise different: their lengths are. -/
theorem six_paths_nodup (R id : String) :
    ([R, R ++ "collections/", R ++ "collections/" ++ id ++ "/",
      R ++ "collections/" ++ id ++ "/objects/",
      R ++ "collections/" ++ id ++ "/objects/{objectid}/",
      R ++ "collections/" ++ id ++ "/manifest/"] : List String).Nodup := by
  apply List.Nodup.of_map String.length
  have h1 : ("collections/" : String).length = 12 := by decide
  have h2 : ("/" : String).length = 1 := by decide
  have h3 : ("/objects/" : String).length = 9 := by decide
  have h4 : ("/objects/{objectid}/" : String).length = 20 := by decide
  have h5 : ("/manifest/" : String).length = 10 := by decide
  simp only [List.map_cons, List.map_nil, String.length_append, h1, h2, h3, h4, h5,
    List.nodup_cons, List.mem_cons, List.mem_singleton, List.not_mem_nil, or_false,
    not_or, List.nodup_nil, and_true, not_false_eq_true]
  generalize R.length = r
  generalize id.length = i
  omega

/-! ## Facts about the JSON texts -/

theorem unquoteBody_skip (c : Char) (rest : List Char) (n : Nat) :
    unquoteBody (c :: rest) (n + 1) = unquoteBody rest n := rfl

theorem unquoteBody_plain (c : Char) (rest : List Char) (h1 : c ≠ dquote)
    (h2 : c ≠ backslash) (h3 : ¬ c.toNat < 32) :
    unquoteBody (c :: rest) 0 = (unquoteBody rest 0).map (fun t => c :: t) := by
  simp [unquoteBody, h1, h2, h3]

theorem unquoteBody_escape (e ch : Char) (rest : List Char) (hu : e ≠ 'u')
    (hs : simpleEscape e = some ch) :
    unquoteBody (backslash :: e :: rest) 0 =
      (unquoteBody rest 0).map (fun t => ch :: t) := by
  have hb : backslash ≠ dquote := by decide
  simp [unquoteBody, hb, hu, hs]

theorem hexDigit_digitChar :
    ∀ n, n < 32 → hexDigit (Nat.digitChar (n / 16)) = some (n / 16) ∧
      hexDigit (Nat.digitChar (n % 16)) = some (n % 16) := by
  decide

theorem unquoteBody_u00 (n : Nat) (hn : n < 32) (rest : List Char) :
    unquoteBody (backslash :: 'u' :: '0' :: '0' :: Nat.digitChar (n / 16) ::
        Nat.digitChar (n % 16) :: rest) 0 =
      (unquoteBody rest 0).map (fun t => Char.ofNat n :: t) := by
  have hb : backslash ≠ dquote := by decide
  have h0 : hexDigit '0' = some 0 := by decide
  obtain ⟨hx, hy⟩ := hexDigit_digitChar n hn
  have hval : n / 16 * 16 + n % 16 = n := by omega
  have hlt : ¬ (55296 ≤ n ∧ n < 57344) := by omega
  simp [unquoteBody, getu4, hb, h0, hx, hy, hval, hlt]

/-- Reading back the escaped characters of a string gives the string. -/
theorem unquoteBody_quote (cs : List Char) :
    unquoteBody (cs.flatMap (fun c =>
      if c = dquote then [backslash, dquote]
      else if c = backslash then [backslash, backslash]
      else if c.toNat < 32 then
        [backslash, 'u', '0', '0', Nat.digitChar (c.toNat / 16),
          Nat.digitChar (c.toNat % 16)]
      else [c]) ++ [dquote]) 0 = some cs := by
  induction cs with
  | nil => decide
  | cons c cs ih =>
    rw [List.flatMap_cons, List.append_assoc]
    by_cases h1 : c = dquote
    · rw [if_pos h1, h1]
      simp only [List.cons_append, List.nil_append]
      rw [unquoteBody_escape dquote dquote _ (by decide) (by decide), ih]
      rfl
    · by_cases h2 : c = backslash
      · rw [if_neg h1, if_pos h2, h2]
        simp only [List.cons_append, List.nil_append]
        rw [unquoteBody_escape backslash backslash _ (by decide) (by decide), ih]
        rfl
      · by_cases h3 : c.toNat < 32
        · rw [if_neg h1, if_neg h2, if_pos h3]
          simp only [List.cons_append, List.nil_append]
          rw [unquoteBody_u00 c.toNat h3, ih, Char.ofNat_toNat]
          rfl
        · rw [if_neg h1, if_neg h2, if_neg h3]
          simp only [List.cons_append, List.nil_append]
          rw [unquoteBody_plain c _ h1 h2 h3, ih]
          rfl

/-- A text between double quotes has no JSON white space to trim. -/
theorem trimJSONSpace_quoted (cs : List Char) :
    trimJSONSpace (dquote :: (cs ++ [dquote])) = dquote :: (cs ++ [dquote]) := by
  have hq : ¬ (isJSONSpace dquote = true) := by decide
  unfold trimJSONSpace
  rw [List.dropWhile_cons_of_neg hq, List.reverse_cons, List.reverse_append,
    List.reverse_singleton, List.singleton_append, List.cons_append,
    List.dropWhile_cons_of_neg hq]
  simp

/-- The text `jsonQuote s` is a JSON string literal that denotes `s`. -/
theorem jsonStringLiteral_jsonQuote (s : String) :
    jsonStringLiteral (jsonQuote s) = some s := by
  unfold jsonStringLiteral jsonQuote
  simp only
  rw [List.cons_append, trimJSONSpace_quoted]
  simp only [if_true, unquoteBody_quote]
  rfl

/-- A JSON string literal or boolean is not the text `null`. -/
theorem literal_ne_null (data : String) :
    (∀ v, jsonStringLiteral data = some v → data ≠ "null") ∧
    (∀ b, jsonBoolLiteral data = some b → data ≠ "null") := by
  constructor
  · intro v h hd
    have hn : jsonStringLiteral "null" = none := by decide
    rw [hd, hn] at h
    exact Option.noConfusion h
  · intro b h hd
    have hn : jsonBoolLiteral "null" = none := by decide
    rw [hd, hn] at h
    exact Option.noConfusion h

/-- The five paths at and below a Collections path `P` for one collection identifier are
pairwise different: their lengths are. -/
theorem five_paths_nodup (P id : String) :
    ([P, P ++ id ++ "/", P ++ id ++ "/objects/", P ++ id ++ "/objects/{objectid}/",
      P ++ id ++ "/manifest/"] : List String).Nodup := by
  apply List.Nodup.of_map String.length
  have h2 : ("/" : String).length = 1 := by decide
  have h3 : ("/objects/" : String).length = 9 := by decide
  have h4 : ("/objects/{objectid}/" : String).length = 20 := by decide
  have h5 : ("/manifest/" : String).length = 10 := by decide
  simp only [List.map_cons, List.map_nil, String.length_append, h2, h3, h4, h5,
    List.nodup_cons, List.mem_cons, List.mem_singleton, List.not_mem_nil, or_false,
    not_or, List.nodup_nil, and_true, not_false_eq_true]
  generalize P.length = p
  generalize id.length = i
  omega

/-! ## Facts about failed and padded decodes -/

theorem trimJSONSpace_null : trimJSONSpace "null".data = "null".data := by decide

/-- A text that is a JSON null after trimming denotes neither a boolean nor a string. -/
theorem null_is_no_literal (data : String)
    (h : trimJSONSpace data.data = "null".data) :
    jsonBoolLiteral data = none ∧ jsonStringLiteral data = none := by
  unfold jsonBoolLiteral jsonStringLiteral
  rw [h]
  decide

/-- What `UnmarshalJSON` of `JSONbool` does on a text other than `null`, by the three
results of `json.Unmarshal`: a boolean is stored, a JSON null with white space around it
is stored as a present zero value, and on every other text the call returns the error
with `Value` and `Valid` as they were and `Set = true`. -/
theorem JSONbool_UnmarshalJSON_cases (b0 : JSONbool) (data : String)
    (hne : data ≠ "null") :
    (∀ b, jsonBoolLiteral data = some b →
      b0.UnmarshalJSON data = ({ Value := b, Valid := true, Set := true }, none)) ∧
    (jsonBoolLiteral data = none → trimJSONSpace data.data = "null".data →
      b0.UnmarshalJSON data = ({ Value := false, Valid := true, Set := true }, none)) ∧
    (jsonBoolLiteral data = none → trimJSONSpace data.data ≠ "null".data →
      b0.UnmarshalJSON data = ({ b0 with Set := true }, some UnmarshalError.invalid)) := by
  refine ⟨?_, ?_, ?_⟩
  · intro b h
    unfold JSONbool.UnmarshalJSON jsonUnmarshalBool
    simp only [hne, if_false, h]
  · intro h ht
    unfold JSONbool.UnmarshalJSON jsonUnmarshalBool
    simp only [hne, if_false, h, ht, if_true]
  · intro h ht
    unfold JSONbool.UnmarshalJSON jsonUnmarshalBool
    simp only [hne, if_false, h, ht]

/-- What `UnmarshalJSON` of `JSONstring` does on a text other than `null`, by the three
results of `json.Unmarshal`: a string is stored, a JSON null with white space around it
is stored as a present zero value, and on every other text the call returns the error
with `Value` and `Valid` as they were and `Set = true`. -/
theorem JSONstring_UnmarshalJSON_cases (s0 : JSONstring) (data : String)
    (hne : data ≠ "null") :
    (∀ v, jsonStringLiteral data = some v →
      s0.UnmarshalJSON data = ({ Value := v, Valid := true, Set := true }, none)) ∧
    (jsonStringLiteral data = none → trimJSONSpace data.data = "null".data →
      s0.UnmarshalJSON data = ({ Value := "", Valid := true, Set := true }, none)) ∧
    (jsonStringLiteral data = none → trimJSONSpace data.data ≠ "null".data →
      s0.UnmarshalJSON data = ({ s0 with Set := true }, some UnmarshalError.invalid)) := by
  refine ⟨?_, ?_, ?_⟩
  · intro v h
    unfold JSONstring.UnmarshalJSON jsonUnmarshalString
    simp only [hne, if_false, h]
  · intro h ht
    unfold JSONstring.UnmarshalJSON jsonUnmarshalString
    simp only [hne, if_false, h, ht, if_true]
  · intro h ht
    unfold JSONstring.UnmarshalJSON jsonUnmarshalString
    simp only [hne, if_false, h, ht]

/-! ## Facts about the configuration loader and unknown identifiers -/

/-- A map read at a key that is not in the map gives the zero value. -/
theorem mapIndex_unknown {α : Type} (z : α) (m : List (String × α)) (key : String)
    (h : key ∉ m.map Prod.fst) : mapIndex z m key = z := by
  induction m with
  | nil => rfl
  | cons kv m ih =>
    obtain ⟨k, v⟩ := kv
    simp only [List.map_cons, List.mem_cons, not_or] at h
    simp only [mapIndex]
    rw [if_neg (fun hk => h.1 hk.symm)]
    exact ih h.2

/-- What `main` does by itself with an identifier that is not in the collection set: the
map read gives the zero collection, whose identifier is empty, and the per-collection pass
registers the four routes of the empty identifier. -/
theorem unknown_identifier_routes (config : ConfigType) (ds : Datastorer)
    (api : APIRootServiceType) (c : String) (h : c ∉ config.knownCollectionIDs) :
    config.collectionResource c = CollectionType.zero ∧
    (collectionRoutes config ds api (collectionsHandlerOf config api) c).map
        Route.endpoint =
      specCollectionEndpoints api.Collections.FullPath "" := by
  have hz : config.collectionResource c = CollectionType.zero :=
    mapIndex_unknown _ _ _ h
  refine ⟨hz, ?_⟩
  rw [collectionRoutes_spec, hz]
  rfl

/-- A route of an API root pass with one of the four per-collection handlers comes from
the per-collection pass of an identifier of the list of the root. -/
theorem per_collection_route_origin (config : ConfigType) (ds : Datastorer)
    (api : APIRootServiceType) (r : Route) (hr : r ∈ apiRootRoutes config ds api)
    (hh : r.handler = HandlerFunc.CollectionHandler ∨
      r.handler = HandlerFunc.ObjectsServerHandler ∨
      r.handler = HandlerFunc.ObjectsByIDServerHandler ∨
      r.handler = HandlerFunc.ManifestServerHandler) :
    ∃ c ∈ api.Collections.ResourceIDs,
      r ∈ collectionRoutes config ds api (collectionsHandlerOf config api) c := by
  have hno : r.handler ≠ HandlerFunc.APIRootHandler ∧
      r.handler ≠ HandlerFunc.CollectionsHandler := by
    rcases hh with h | h | h | h <;> rw [h] <;> exact ⟨by decide, by decide⟩
  rw [apiRootRoutes_eq] at hr
  by_cases he : api.Enabled = true
  · by_cases hc : api.Collections.Enabled = true
    · rw [if_pos he, if_pos hc, List.mem_cons, List.mem_cons, List.mem_flatMap] at hr
      rcases hr with hr | hr | hr
      · exact absurd (by rw [hr]) hno.1
      · exact absurd (by rw [hr]) hno.2
      · exact hr
    · rw [if_pos he, if_neg hc, List.mem_singleton] at hr
      exact absurd (by rw [hr]) hno.1
  · rw [if_neg he] at hr
    exact absurd hr (List.not_mem_nil _)

/-- The loader accepts a configuration only when no listed identifier is unknown, and
returns it with the Collections paths filled in. -/
theorem config_New_ok (raw loaded : ConfigType) (h : config.New raw = Except.ok loaded) :
    raw.unknownCollectionIDs = [] ∧ loaded = raw.withCollectionsPaths := by
  unfold config.New at h
  cases hu : raw.unknownCollectionIDs with
  | cons c cs =>
    rw [hu] at h
    exact Except.noConfusion h
  | nil =>
    rw [hu] at h
    simp only at h
    by_cases h1 : raw.Global.DbType ≠ "sqlite3"
    · rw [if_pos h1] at h
      exact Except.noConfusion h
    · rw [if_neg h1] at h
      by_cases h2 : raw.Global.Protocol ≠ "http" ∧ raw.Global.Protocol ≠ "https"
      · rw [if_pos h2] at h
        exact Except.noConfusion h
      · rw [if_neg h2] at h
        injection h with h
        exact ⟨rfl, h.symm⟩

/-- The loader rejects a configuration in which an API root lists an identifier that is
not in the collection set. -/
theorem config_New_unknown (raw : ConfigType) (api : APIRootServiceType) (c : String)
    (hmem : api ∈ raw.APIRootServer.Services) (hc : c ∈ api.Collections.ResourceIDs)
    (hmiss : c ∉ raw.knownCollectionIDs) :
    ∃ c', c' ∉ raw.knownCollectionIDs ∧
      config.New raw = Except.error (ConfigError.unknownCollection c') := by
  have hin : c ∈ raw.unknownCollectionIDs := by
    unfold ConfigType.unknownCollectionIDs
    rw [List.mem_filter]
    exact ⟨List.mem_flatMap.mpr ⟨api, hmem, hc⟩, by simpa using hmiss⟩
  unfold config.New
  cases hu : raw.unknownCollectionIDs with
  | nil =>
    rw [hu] at hin
    exact absurd hin (List.not_mem_nil _)
  | cons c' cs =>
    have hc' : c' ∈ raw.unknownCollectionIDs := by
      rw [hu]
      exact List.mem_cons_self _ _
    unfold ConfigType.unknownCollectionIDs at hc'
    rw [List.mem_filter] at hc'
    exact ⟨c', by simpa using hc'.2, rfl⟩

/-! ## Enabled flags (C1) -/

/-- Where a route of the router comes from: an enabled discovery service of an enabled
discovery server, or an enabled API root of an enabled API root server; in the second case
the route is the API root route, or the Collections service of the root is enabled. -/
theorem mem_router_cases (config : ConfigType) (ds : Datastorer) (r : Route)
    (hr : r ∈ (registerServices config ds).router) :
    (config.DiscoveryServer.Enabled = true ∧
      ∃ c ∈ config.DiscoveryServer.Services, c.Enabled = true ∧
        r ∈ discoveryRoutes config c ∧ r.handler = HandlerFunc.DiscoveryHandler) ∨
    (config.APIRootServer.Enabled = true ∧
      ∃ api ∈ config.APIRootServer.Services, api.Enabled = true ∧
        r ∈ apiRootRoutes config ds api ∧
        (r.handler = HandlerFunc.APIRootHandler ∨
          (api.Collections.Enabled = true ∧ r.handler ≠ HandlerFunc.DiscoveryHandler ∧
            r.handler ≠ HandlerFunc.APIRootHandler))) := by
  rw [registerServices_router, List.mem_append] at hr
  rcases hr with hr | hr
  · left
    by_cases hd : config.DiscoveryServer.Enabled = true
    · rw [if_pos hd, List.mem_flatMap] at hr
      obtain ⟨c, hc, hrc⟩ := hr
      refine ⟨hd, c, hc, ?_⟩
      have h := discoveryRoutes_eq config c
      by_cases he : c.Enabled = true
      · refine ⟨he, hrc, ?_⟩
        rw [h, if_pos he, List.mem_singleton] at hrc
        rw [hrc]
      · rw [h, if_neg he] at hrc
        exact absurd hrc (List.not_mem_nil _)
    · rw [if_neg hd] at hr
      exact absurd hr (List.not_mem_nil _)
  · right
    by_cases ha : config.APIRootServer.Enabled = true
    · rw [if_pos ha, List.mem_flatMap] at hr
      obtain ⟨api, hapi, hrc⟩ := hr
      refine ⟨ha, api, hapi, ?_⟩
      have h := apiRootRoutes_eq config ds api
      by_cases he : api.Enabled = true
      · refine ⟨he, hrc, ?_⟩
        rw [h, if_pos he, List.mem_cons] at hrc
        rcases hrc with hrc | hrc
        · left
          rw [hrc]
        · right
          by_cases hc : api.Collections.Enabled = true
          · refine ⟨hc, ?_⟩
            rw [if_pos hc, List.mem_cons] at hrc
            rcases hrc with hrc | hrc
            · rw [hrc]
              exact ⟨by simp, by simp⟩
            · rw [List.mem_flatMap] at hrc
              obtain ⟨c, _, hrc⟩ := hrc
              rcases collectionRoutes_handler config ds api _ c r hrc with h | h | h | h <;>
                rw [h] <;> exact ⟨by decide, by decide⟩
          · rw [if_neg hc] at hrc
            exact absurd hrc (List.not_mem_nil _)
      · rw [h, if_neg he] at hrc
        exact absurd hrc (List.not_mem_nil _)
    · rw [if_neg ha] at hr
      exact absurd hr (List.not_mem_nil _)

/-- C1: a route is in the router only when every `Enabled` flag above it is true.  A
Discovery route comes from an enabled service of an enabled discovery server, an APIRoot
route from an enabled root of an enabled API root server, and a route of one of the other
five kinds from such a root whose Collections service is enabled as well.  A block or
loop pass whose flag is false leaves the router and the counter as they are, and a root
whose Collections service is disabled registers its APIRoot route only. -/
theorem enabled_flags_gate_registration (config : ConfigType) (ds : Datastorer) :
    (∀ r ∈ (registerServices config ds).router,
      (r.handler = HandlerFunc.DiscoveryHandler →
        config.DiscoveryServer.Enabled = true ∧
        ∃ c ∈ config.DiscoveryServer.Services, c.Enabled = true ∧
          r ∈ discoveryRoutes config c) ∧
      (r.handler = HandlerFunc.APIRootHandler →
        config.APIRootServer.Enabled = true ∧
        ∃ api ∈ config.APIRootServer.Services, api.Enabled = true ∧
          r ∈ apiRootRoutes config ds api) ∧
      (r.handler ≠ HandlerFunc.DiscoveryHandler → r.handler ≠ HandlerFunc.APIRootHandler →
        config.APIRootServer.Enabled = true ∧
        ∃ api ∈ config.APIRootServer.Services, api.Enabled = true ∧
          api.Collections.Enabled = true ∧ r ∈ apiRootRoutes config ds api)) ∧
    (∀ st, config.DiscoveryServer.Enabled = false → registerDiscoveryServer config st = st) ∧
    (∀ st c, c.Enabled = false → registerDiscoveryService config st c = st) ∧
    (∀ st, config.APIRootServer.Enabled = false → registerAPIRootServer config ds st = st) ∧
    (∀ st api, api.Enabled = false → registerAPIRootService config ds st api = st) ∧
    (∀ st api, api.Enabled = true → api.Collections.Enabled = false →
      (registerAPIRootService config ds st api).router.map Route.endpoint =
        st.router.map Route.endpoint ++ [(HandlerFunc.APIRootHandler, api.FullPath)]) := by
  refine ⟨?_, ?_, ?_, ?_, ?_, ?_⟩
  · intro r hr
    rcases mem_router_cases config ds r hr with ⟨hd, c, hc, he, hrc, hh⟩ |
      ⟨ha, api, hapi, he, hrc, hh⟩
    · refine ⟨fun _ => ⟨hd, c, hc, he, hrc⟩, ?_, ?_⟩
      · intro h
        rw [hh] at h
        exact absurd h (by decide)
      · intro h
        exact absurd hh h
    · refine ⟨?_, fun _ => ⟨ha, api, hapi, he, hrc⟩, ?_⟩
      · intro h
        rcases hh with hh | ⟨_, hh, _⟩
        · rw [hh] at h
          exact absurd h (by decide)
        · exact absurd h hh
      · intro _ h2
        rcases hh with hh | ⟨hc, _, _⟩
        · exact absurd hh h2
        · exact ⟨ha, api, hapi, he, hc, hrc⟩
  · intro st h
    simp [registerDiscoveryServer, h]
  · intro st c h
    simp [registerDiscoveryService, h]
  · intro st h
    simp [registerAPIRootServer, h]
  · intro st api h
    simp [registerAPIRootService, h]
  · intro st api h hc
    simp [registerAPIRootService, h, hc, Router.HandleFunc, Route.endpoint]

/-- C1 at concrete configurations: with the API root server disabled the enabled root
`/api1/` registers nothing, and a disabled root is skipped by its loop pass. -/
theorem enabled_flags_gate_registration_witness :
    registerAPIRootServer
        (exampleConfig { Enabled := false, Services := [] }
          { Enabled := false, Services := [exampleAPIRoot true true ["col-1"]] } true false)
        exampleDS MainState.init = MainState.init ∧
      registerAPIRootService (scenarioConfig ["col-1"] true false) exampleDS MainState.init
        (exampleAPIRoot false true ["col-1"]) = MainState.init :=
  ⟨(enabled_flags_gate_registration _ exampleDS).2.2.2.1 MainState.init (by decide),
   (enabled_flags_gate_registration (scenarioConfig ["col-1"] true false)
      exampleDS).2.2.2.2.1 MainState.init (exampleAPIRoot false true ["col-1"]) (by decide)⟩

/-! ## The Collections listing (C2) -/

/-- C2: for an enabled API root with its Collections service enabled, the root registers
a Collections route, and the resource bound to it is the list `ResourceIDs` filtered by
`CanRead || CanWrite`, each identifier replaced by the collection stored under it: the
listing keeps the order of `ResourceIDs`, and a collection is in it exactly when it is
stored under an identifier of `ResourceIDs` and can be read or written. -/
theorem collections_listing_is_filtered (config : ConfigType) (ds : Datastorer)
    (api : APIRootServiceType) (hs : config.APIRootServer.Enabled = true)
    (hmem : api ∈ config.APIRootServer.Services) (he : api.Enabled = true)
    (hc : api.Collections.Enabled = true) :
    (∃ r ∈ (registerServices config ds).router,
      r ∈ apiRootRoutes config ds api ∧ r.handler = HandlerFunc.CollectionsHandler) ∧
    (∀ r ∈ apiRootRoutes config ds api, r.handler = HandlerFunc.CollectionsHandler →
      r.srv.Resource = ResourceValue.collections
        { Collections :=
            (api.Collections.ResourceIDs.filter
              (fun c => (config.collectionResource c).CanRead
                || (config.collectionResource c).CanWrite)).map
              config.collectionResource }) ∧
    (∀ col : CollectionType,
      col ∈ (api.Collections.ResourceIDs.filter
              (fun c => (config.collectionResource c).CanRead
                || (config.collectionResource c).CanWrite)).map
              config.collectionResource ↔
        ∃ c ∈ api.Collections.ResourceIDs, config.collectionResource c = col ∧
          (col.CanRead = true ∨ col.CanWrite = true)) := by
  have hroutes := apiRootRoutes_eq config ds api
  rw [if_pos he, if_pos hc] at hroutes
  refine ⟨?_, ?_, ?_⟩
  · have hin : (⟨api.Collections.FullPath, HandlerFunc.CollectionsHandler,
        collectionsHandlerOf config api, ["GET"]⟩ : Route) ∈
        apiRootRoutes config ds api := by
      rw [hroutes]
      exact List.mem_cons_of_mem _ (List.mem_cons_self _ _)
    exact ⟨_, apiRootRoutes_subset config ds api hs hmem _ hin, hin, rfl⟩
  · intro r hr hh
    rw [hroutes, List.mem_cons, List.mem_cons] at hr
    rcases hr with hr | hr | hr
    · rw [hr] at hh
      simp at hh
    · rw [hr]
      exact collectionsHandlerOf_Resource config api
    · rw [List.mem_flatMap] at hr
      obtain ⟨c, _, hrc⟩ := hr
      rcases collectionRoutes_handler config ds api _ c r hrc with h | h | h | h <;>
        rw [h] at hh <;> simp at hh
  · intro col
    simp only [List.mem_map, List.mem_filter, Bool.or_eq_true]
    constructor
    · rintro ⟨c, ⟨hcm, hf⟩, rfl⟩
      exact ⟨c, hcm, rfl, hf⟩
    · rintro ⟨c, hcm, rfl, hf⟩
      exact ⟨c, ⟨hcm, hf⟩, rfl⟩

/-- C2 at the scenario of one root with the readable collection `col-1` and an unknown
identifier `col-9`: the listing of the Collections route is `col-1` alone. -/
theorem collections_listing_is_filtered_witness :
    (collectionsHandlerOf (scenarioConfig ["col-1", "col-9"] true false)
        (exampleAPIRoot true true ["col-1", "col-9"])).Resource =
      ResourceValue.collections
        { Collections :=
            [{ ID := "col-1", Title := "Collection 1", CanRead := true,
               CanWrite := false }] } :=
  (collections_listing_is_filtered (scenarioConfig ["col-1", "col-9"] true false) exampleDS
    (exampleAPIRoot true true ["col-1", "col-9"]) (by decide) (by decide) (by decide)
    (by decide)).2.1
    ⟨"/api1/collections/", HandlerFunc.CollectionsHandler,
      collectionsHandlerOf (scenarioConfig ["col-1", "col-9"] true false)
        (exampleAPIRoot true true ["col-1", "col-9"]), ["GET"]⟩
    (by decide) rfl

/-! ## Path collisions (C3) -/

/-- C3, counterexample: with the identifier `col-1` listed twice in the root's
`ResourceIDs`, and with two enabled roots of the same path, `main` is not stopped by any
error: it reaches `ListenAndServe` with a router in which two routes have the same
path. -/
theorem duplicate_paths_reach_listening :
    (main (scenarioConfig ["col-1", "col-1"] true false) =
        Outcome.listenAndServe ":8000"
          (registerServices (scenarioConfig ["col-1", "col-1"] true false) exampleDS).router ∧
      ¬ ((registerServices (scenarioConfig ["col-1", "col-1"] true false)
          exampleDS).router.map Route.path).Nodup) ∧
    (main twoRootsConfig =
        Outcome.listenAndServe ":8000" (registerServices twoRootsConfig exampleDS).router ∧
      ¬ ((registerServices twoRootsConfig exampleDS).router.map Route.path).Nodup) := by
  decide

/-- C3, amended: `main` has no check of path collisions.  With the database type
`sqlite3`, the protocol `http` or `https` and the API root server enabled, `main` reaches
its listener with the assembled router whenever the router is not empty; this is so in
particular when an enabled root with its Collections service enabled lists an identifier
twice, and when two enabled roots have the same path, and the router then holds two routes
with one path. -/
theorem path_collisions_are_not_rejected (config : ConfigType)
    (hdb : config.Global.DbType = "sqlite3")
    (hp : config.Global.Protocol = "http" ∨ config.Global.Protocol = "https")
    (hs : config.APIRootServer.Enabled = true) :
    ((registerServices config
        { databaseFilename := config.Global.Prefix ++ config.Global.DbFile }).router ≠ [] →
      (main config).listeningRouter = some (registerServices config
        { databaseFilename := config.Global.Prefix ++ config.Global.DbFile }).router) ∧
    (∀ api ∈ config.APIRootServer.Services, api.Enabled = true →
      api.Collections.Enabled = true → ¬ api.Collections.ResourceIDs.Nodup →
      (main config).listeningRouter = some (registerServices config
        { databaseFilename := config.Global.Prefix ++ config.Global.DbFile }).router ∧
      ¬ ((registerServices config
        { databaseFilename := config.Global.Prefix ++ config.Global.DbFile }).router.map
          Route.path).Nodup) ∧
    (¬ ((config.APIRootServer.Services.filter (fun api => api.Enabled)).map
        (fun api => api.FullPath)).Nodup →
      (main config).listeningRouter = some (registerServices config
        { databaseFilename := config.Global.Prefix ++ config.Global.DbFile }).router ∧
      ¬ ((registerServices config
        { databaseFilename := config.Global.Prefix ++ config.Global.DbFile }).router.map
          Route.path).Nodup) := by
  have hdupne : ∀ ds : Datastorer,
      ¬ ((registerServices config ds).router.map Route.path).Nodup →
        (registerServices config ds).router ≠ [] := by
    intro ds hnd hnil
    rw [hnil] at hnd
    exact hnd List.nodup_nil
  refine ⟨main_listens config hdb hp, ?_, ?_⟩
  · intro api hmem he hc hdup
    have hnd : ¬ ((registerServices config
        { databaseFilename := config.Global.Prefix ++ config.Global.DbFile }).router.map
          Route.path).Nodup := by
      intro hn
      exact hdup (List.Nodup.of_map _
        (List.Nodup.sublist (collection_paths_sublist config _ api hs hmem he hc) hn))
    exact ⟨main_listens config hdb hp (hdupne _ hnd), hnd⟩
  · intro hdup
    have hnd : ¬ ((registerServices config
        { databaseFilename := config.Global.Prefix ++ config.Global.DbFile }).router.map
          Route.path).Nodup := by
      intro hn
      exact hdup (List.Nodup.sublist (enabled_root_paths_sublist config _ hs) hn)
    exact ⟨main_listens config hdb hp (hdupne _ hnd), hnd⟩

/-- C3, amended, at the configuration that lists `col-1` twice. -/
theorem path_collisions_are_not_rejected_witness :
    (main (scenarioConfig ["col-1", "col-1"] true false)).listeningRouter =
        some (registerServices (scenarioConfig ["col-1", "col-1"] true false)
          { databaseFilename := "" ++ "freetaxii.db" }).router ∧
      ¬ ((registerServices (scenarioConfig ["col-1", "col-1"] true false)
          { databaseFilename := "" ++ "freetaxii.db" }).router.map Route.path).Nodup :=
  (path_collisions_are_not_rejected (scenarioConfig ["col-1", "col-1"] true false)
    (by decide) (Or.inl (by decide)) (by decide)).2.1
    (exampleAPIRoot true true ["col-1", "col-1"]) (by decide) (by decide) (by decide)
    (by decide)

/-! ## The check of `serviceCounter` (C4) -/

/-- C4: `serviceCounter` is 0 exactly when the router has no route; so the fatal
"No TAXII services defined" of the check after the registrations is raised exactly when
nothing was registered, and `main` ends with it exactly when the database type is
supported and nothing was registered. -/
theorem no_services_iff_empty_router (config : ConfigType) (ds : Datastorer) :
    ((registerServices config ds).serviceCounter = 0 ↔ (registerServices config ds).router = []) ∧
    (checkAndListen config (registerServices config ds) =
        Outcome.fatal "No TAXII services defined" ↔
      (registerServices config ds).router = []) ∧
    (main config = Outcome.fatal "No TAXII services defined" ↔
      config.Global.DbType = "sqlite3" ∧
        (registerServices config
          { databaseFilename := config.Global.Prefix ++ config.Global.DbFile }).router
          = []) := by
  have key := serviceCounter_eq_zero_iff config
  have chk : ∀ ds' : Datastorer,
      checkAndListen config (registerServices config ds') =
          Outcome.fatal "No TAXII services defined" ↔
        (registerServices config ds').router = [] := by
    intro ds'
    rw [← key ds']
    unfold checkAndListen
    by_cases h0 : (registerServices config ds').serviceCounter = 0
    · simp [h0]
    · by_cases hp : config.Global.Protocol = "http"
      · simp [h0, hp]
      · by_cases hp2 : config.Global.Protocol = "https"
        · simp [h0, hp, hp2]
        · simp only [beq_iff_eq, h0, hp, hp2, if_false, Outcome.fatal.injEq, iff_false]
          decide
  refine ⟨key ds, chk ds, ?_⟩
  unfold main
  by_cases hdb : config.Global.DbType = "sqlite3"
  · simp only [beq_iff_eq, hdb, if_true, true_and]
    exact chk _
  · simp only [beq_iff_eq, hdb, if_false, false_and, iff_false, Outcome.fatal.injEq]
    decide

/-! ## Per-collection endpoints and capability flags (C5) -/

/-- C5: for an enabled API root with its Collections service enabled and an identifier `c`
of its `ResourceIDs`, the Collection, Objects, ObjectByID and Manifest endpoints of `c`
are registered whatever the capability flags are.  When the collection stored under `c`
can neither be read nor written, it is not in the listing bound to the Collections route,
and the four endpoints are registered all the same.  Replacing the capability flags of the
known collections by any others leaves the registered kinds and paths unchanged. -/
theorem collection_endpoints_ignore_capabilities (config : ConfigType) (ds : Datastorer)
    (api : APIRootServiceType) (c : String)
    (hs : config.APIRootServer.Enabled = true)
    (hmem : api ∈ config.APIRootServer.Services) (he : api.Enabled = true)
    (hc : api.Collections.Enabled = true) (hcm : c ∈ api.Collections.ResourceIDs) :
    (∀ e ∈ specCollectionEndpoints api.Collections.FullPath (config.collectionResource c).ID,
      e ∈ (registerServices config ds).router.map Route.endpoint) ∧
    ((config.collectionResource c).CanRead = false →
      (config.collectionResource c).CanWrite = false →
      ∀ r ∈ apiRootRoutes config ds api, r.handler = HandlerFunc.CollectionsHandler →
        ∃ l : CollectionsType, r.srv.Resource = ResourceValue.collections l ∧
          config.collectionResource c ∉ l.Collections) ∧
    (∀ f : String → CollectionType → Bool × Bool,
      (registerServices (config.withCapabilities f) ds).router.map Route.endpoint =
        (registerServices config ds).router.map Route.endpoint) := by
  refine ⟨?_, ?_, ?_⟩
  · intro e hmemE
    apply specRootEndpoints_subset config ds api hs hmem
    unfold specRootEndpoints
    rw [if_pos he, if_pos hc]
    exact List.mem_cons_of_mem _ (List.mem_cons_of_mem _
      (List.mem_flatMap.mpr ⟨c, hcm, hmemE⟩))
  · intro hr hw r hrm hh
    obtain ⟨_, _, _, hsrv⟩ := collections_route_srv config ds api r hrm hh
    refine ⟨_, by rw [hsrv]; exact collectionsHandlerOf_Resource config api, ?_⟩
    simp only [List.mem_map, List.mem_filter, Bool.or_eq_true, not_exists, not_and]
    intro c' hc' heq
    rw [heq, hr, hw] at hc'
    simp at hc'
  · intro f
    rw [registerServices_endpoints, registerServices_endpoints]
    unfold specRegistry
    rw [funext (specRootEndpoints_withCapabilities config f)]
    rfl

/-- C5 at the scenario with `col-1` neither readable nor writable: its Objects endpoint
is registered. -/
theorem collection_endpoints_ignore_capabilities_witness :
    (HandlerFunc.ObjectsServerHandler, "/api1/collections/col-1/objects/") ∈
      (registerServices (scenarioConfig ["col-1"] false false) exampleDS).router.map
        Route.endpoint :=
  (collection_endpoints_ignore_capabilities (scenarioConfig ["col-1"] false false)
    exampleDS (exampleAPIRoot true true ["col-1"]) "col-1" (by decide) (by decide)
    (by decide) (by decide) (by decide)).1
    (HandlerFunc.ObjectsServerHandler, "/api1/collections/col-1/objects/") (by decide)

/-! ## The shape of the registry (C6) -/

/-- C6: with discovery disabled, the kinds and paths of the router are, in the order of
the configuration, those of the specification: for each enabled root the APIRoot endpoint,
then, if its Collections service is enabled, the Collections endpoint and, for each
configured identifier, Collection, Objects, ObjectByID, Manifest.  A root with `n`
identifiers contributes `2 + 4 * n` endpoints, `1` if its Collections service is
disabled, none if the root is disabled.  One enabled root with one identifier gives six
routes; the five paths at and below the Collections endpoint are pairwise different, and
with the Collections path `<apiRootPath>collections/`, which `main` takes from the
configuration, all six paths are. -/
theorem registry_shape (config : ConfigType) (ds : Datastorer)
    (hd : config.DiscoveryServer.Enabled = false) :
    (registerServices config ds).router.map Route.endpoint = specRegistry config ∧
    (∀ api : APIRootServiceType,
      (apiRootRoutes config ds api).length =
        if api.Enabled = true then
          (if api.Collections.Enabled = true then 2 + 4 * api.Collections.ResourceIDs.length
           else 1)
        else 0) ∧
    (∀ (api : APIRootServiceType) (c : String),
      config.APIRootServer.Enabled = true → config.APIRootServer.Services = [api] →
      api.Enabled = true → api.Collections.Enabled = true →
      api.Collections.ResourceIDs = [c] →
        (registerServices config ds).router.length = 6 ∧
        (((registerServices config ds).router.map Route.path).tail).Nodup ∧
        (api.Collections.FullPath = api.FullPath ++ "collections/" →
          ((registerServices config ds).router.map Route.path).Nodup)) := by
  have hlen : ∀ api : APIRootServiceType,
      (apiRootRoutes config ds api).length =
        if api.Enabled = true then
          (if api.Collections.Enabled = true then 2 + 4 * api.Collections.ResourceIDs.length
           else 1)
        else 0 := by
    intro api
    have h := congrArg List.length (apiRootRoutes_endpoints config ds api)
    rw [List.length_map] at h
    rw [h]
    unfold specRootEndpoints
    by_cases he : api.Enabled = true
    · by_cases hc : api.Collections.Enabled = true
      · rw [if_pos he, if_pos hc, if_pos he, if_pos hc, List.length_cons, List.length_cons]
        have h4 : ∀ ids : List String,
            (ids.flatMap (fun c => specCollectionEndpoints api.Collections.FullPath
              (config.collectionResource c).ID)).length = 4 * ids.length := by
          intro ids
          induction ids with
          | nil => rfl
          | cons x xs ih =>
            rw [List.flatMap_cons, List.length_append, ih, List.length_cons]
            simp only [specCollectionEndpoints, List.length_cons, List.length_nil]
            omega
        rw [h4]
        omega
      · rw [if_pos he, if_neg hc, if_pos he, if_neg hc]
        rfl
    · rw [if_neg he, if_neg he]
      rfl
  refine ⟨?_, hlen, ?_⟩
  · rw [registerServices_endpoints]
    simp [hd]
  · intro api c hs hsv he hc hids
    have hrouter : (registerServices config ds).router.map Route.endpoint =
        specRootEndpoints config api := by
      rw [registerServices_endpoints, specRegistry, if_pos hs, hsv]
      simp [hd]
    constructor
    · have h := congrArg List.length hrouter
      rw [List.length_map, ← apiRootRoutes_endpoints config ds api, List.length_map,
        hlen api, if_pos he, if_pos hc, hids] at h
      exact h
    · have hp : (registerServices config ds).router.map Route.path =
          (specRootEndpoints config api).map Prod.snd := by
        rw [← hrouter, List.map_map]
        rfl
      rw [hp]
      unfold specRootEndpoints
      rw [if_pos he, if_pos hc, hids]
      constructor
      · exact five_paths_nodup api.Collections.FullPath (config.collectionResource c).ID
      · intro hpath
        rw [hpath]
        exact six_paths_nodup api.FullPath (config.collectionResource c).ID

/-- C6 at the scenario of the specification: one enabled root `/api1/` with the readable
collection `col-1` gives six routes with six different paths. -/
theorem registry_shape_witness :
    (registerServices (scenarioConfig ["col-1"] true false) exampleDS).router.length = 6 ∧
      ((registerServices (scenarioConfig ["col-1"] true false) exampleDS).router.map
        Route.path).Nodup :=
  have h := (registry_shape (scenarioConfig ["col-1"] true false) exampleDS
    (by decide)).2.2 (exampleAPIRoot true true ["col-1"]) "col-1" (by decide) (by decide)
    (by decide) (by decide) (by decide)
  ⟨h.1, h.2.2 (by decide)⟩

/-! ## The error emitters (C7) -/

/-- C7: whatever the handler and whatever the writer has received before, the emitter of
an error kind sets the content type, calls `WriteHeader` with the status of the table of
the specification (401, 406, 415, 404, 400, 404) and encodes an error resource whose
`error_code` is the decimal text of that status and whose `http_status` begins with it;
the calls do not depend on the handler. -/
theorem error_emitters_follow_table (kind : ErrorKind) (s : ServerHandler)
    (w : ResponseWriter) :
    (∃ e : TAXIIErrorType,
      emit kind s w =
        w ++ [WriterCall.HeaderSet "Content-Type" MediaType.MEDIA_TYPE_TAXII21,
              WriterCall.WriteHeader (specStatus kind),
              WriterCall.Encode "" "    " e] ∧
      e.ErrorCode = toString (specStatus kind) ∧
      List.IsPrefix (toString (specStatus kind)).data e.HTTPStatus.data) ∧
    (∀ s' : ServerHandler, emit kind s' w = emit kind s w) ∧
    (sendUnauthenticatedError s w =
      w ++ [WriterCall.HeaderSet "Content-Type" MediaType.MEDIA_TYPE_TAXII21,
            WriterCall.WriteHeader 401,
            WriterCall.Encode "" "    "
              { Title := "Authentication Required",
                Description := "The requested resources requires authentication.",
                ErrorCode := "401", HTTPStatus := "401 Unauthorized" }]) ∧
    (sendNotAcceptableError s w =
      w ++ [WriterCall.HeaderSet "Content-Type" MediaType.MEDIA_TYPE_TAXII21,
            WriterCall.WriteHeader 406,
            WriterCall.Encode "" "    "
              { Title := "Wrong Media Type",
                Description :=
                  "The requested media type in the accept header is not supported.",
                ErrorCode := "406", HTTPStatus := "406 Not Acceptable" }]) ∧
    (sendUnsupportedMediaTypeError s w =
      w ++ [WriterCall.HeaderSet "Content-Type" MediaType.MEDIA_TYPE_TAXII21,
            WriterCall.WriteHeader 415,
            WriterCall.Encode "" "    "
              { Title := "Wrong Media Type",
                Description :=
                  "The requested media type in the content-type header is not supported.",
                ErrorCode := "415", HTTPStatus := "415 Unsupported Media Type" }]) ∧
    (sendGetObjectsError s w =
      w ++ [WriterCall.HeaderSet "Content-Type" MediaType.MEDIA_TYPE_TAXII21,
            WriterCall.WriteHeader 404,
            WriterCall.Encode "" "    "
              { Title := "Get Objects Error",
                Description := "The request for objects caused an error.",
                ErrorCode := "404", HTTPStatus := "404 Not Found" }]) ∧
    (sendParseObjectsError s w =
      w ++ [WriterCall.HeaderSet "Content-Type" MediaType.MEDIA_TYPE_TAXII21,
            WriterCall.WriteHeader 400,
            WriterCall.Encode "" "    "
              { Title := "Post Objects Error",
                Description := "The request to post objects caused an error.",
                ErrorCode := "400", HTTPStatus := "400 Bad Request" }]) ∧
    (sendStatusNotFound s w =
      w ++ [WriterCall.HeaderSet "Content-Type" MediaType.MEDIA_TYPE_TAXII21,
            WriterCall.WriteHeader 404,
            WriterCall.Encode "" "    "
              { Title := "No Objects Found",
                Description := "There were no objects returned matching the request.",
                ErrorCode := "404", HTTPStatus := "404 Not Found" }]) := by
  have happ : ∀ (a b c : WriterCall), (w ++ [a] ++ [b]) ++ [c] = w ++ [a, b, c] := by
    intro a b c
    simp
  refine ⟨?_, ?_, happ _ _ _, happ _ _ _, happ _ _ _, happ _ _ _, happ _ _ _,
    happ _ _ _⟩
  · cases kind
    · exact ⟨_, happ _ _ _, by decide, ⟨" Unauthorized".data, by decide⟩⟩
    · exact ⟨_, happ _ _ _, by decide, ⟨" Not Acceptable".data, by decide⟩⟩
    · exact ⟨_, happ _ _ _, by decide, ⟨" Unsupported Media Type".data, by decide⟩⟩
    · exact ⟨_, happ _ _ _, by decide, ⟨" Not Found".data, by decide⟩⟩
    · exact ⟨_, happ _ _ _, by decide, ⟨" Bad Request".data, by decide⟩⟩
    · exact ⟨_, happ _ _ _, by decide, ⟨" Not Found".data, by decide⟩⟩
  · intro s'
    cases kind <;> rfl

/-! ## Tri-state JSON fields (C8) -/

/-- C8: the zero value has `Set = false` and `Valid = false`.  From any state,
`UnmarshalJSON` on the text `null` returns no error and gives `Set = true`,
`Valid = false` and the zero `Value`; on a text that denotes the JSON boolean `b`, or the
JSON string `v`, it returns no error and gives `Set = true`, `Valid = true` and
`Value = b`, or `Value = v`.  The texts `true` and `false` denote the two booleans, and
for every string `v` the text `jsonQuote v` denotes `v`, so that `v` is recovered
exactly. -/
theorem tri_state_decoding :
    (JSONbool.zero.Set = false ∧ JSONbool.zero.Valid = false ∧
      JSONstring.zero.Set = false ∧ JSONstring.zero.Valid = false) ∧
    (∀ b0 : JSONbool,
      b0.UnmarshalJSON "null" = ({ Value := false, Valid := false, Set := true }, none)) ∧
    (∀ s0 : JSONstring,
      s0.UnmarshalJSON "null" = ({ Value := "", Valid := false, Set := true }, none)) ∧
    (∀ (b0 : JSONbool) (data : String) (b : Bool), jsonBoolLiteral data = some b →
      b0.UnmarshalJSON data = ({ Value := b, Valid := true, Set := true }, none)) ∧
    (jsonBoolLiteral "true" = some true ∧ jsonBoolLiteral "false" = some false) ∧
    (∀ (s0 : JSONstring) (data v : String), jsonStringLiteral data = some v →
      s0.UnmarshalJSON data = ({ Value := v, Valid := true, Set := true }, none)) ∧
    (∀ v : String, jsonStringLiteral (jsonQuote v) = some v) := by
  refine ⟨⟨rfl, rfl, rfl, rfl⟩, ?_, ?_, ?_, ⟨by decide, by decide⟩, ?_,
    jsonStringLiteral_jsonQuote⟩
  · intro b0
    rfl
  · intro s0
    rfl
  · intro b0 data b h
    have hne := (literal_ne_null data).2 b h
    unfold JSONbool.UnmarshalJSON jsonUnmarshalBool
    simp only [hne, if_false, h]
  · intro s0 data v h
    have hne := (literal_ne_null data).1 v h
    unfold JSONstring.UnmarshalJSON jsonUnmarshalString
    simp only [hne, if_false, h]

/-- C8 at concrete texts: a boolean with white space around it and a string with an
escaped quote, decoded into zero-valued fields. -/
theorem tri_state_decoding_witness :
    JSONbool.zero.UnmarshalJSON " true " =
        ({ Value := true, Valid := true, Set := true }, none) ∧
      JSONstring.zero.UnmarshalJSON (jsonQuote "col-1") =
        ({ Value := "col-1", Valid := true, Set := true }, none) :=
  ⟨tri_state_decoding.2.2.2.1 JSONbool.zero " true " true (by decide),
   tri_state_decoding.2.2.2.2.2.1 JSONstring.zero (jsonQuote "col-1") "col-1" (by decide)⟩

/-! ## Paths below the Collections endpoint (C9) -/

/-- C9: for an enabled API root with its Collections service enabled, whose Collections
route has the path `P`, and an identifier `c` of its `ResourceIDs`, with `id` the
identifier of the collection stored under `c`: the per-collection pass registers, in this
order, Collection at `P ++ id ++ "/"`, Objects at `P ++ id ++ "/objects/"`, ObjectByID at
`P ++ id ++ "/objects/{objectid}/"` and Manifest at `P ++ id ++ "/manifest/"`; these
routes are in the router; each of the four paths has the Collection path as a prefix, and
the ObjectByID path has the Objects path as a prefix. -/
theorem collection_paths_by_concatenation (config : ConfigType) (ds : Datastorer)
    (api : APIRootServiceType) (c : String)
    (hs : config.APIRootServer.Enabled = true)
    (hmem : api ∈ config.APIRootServer.Services) (he : api.Enabled = true)
    (hc : api.Collections.Enabled = true) (hcm : c ∈ api.Collections.ResourceIDs) :
    (∀ r ∈ apiRootRoutes config ds api, r.handler = HandlerFunc.CollectionsHandler →
      r.path = api.Collections.FullPath) ∧
    (collectionRoutes config ds api (collectionsHandlerOf config api) c).map
        Route.endpoint =
      [ (HandlerFunc.CollectionHandler,
          api.Collections.FullPath ++ (config.collectionResource c).ID ++ "/"),
        (HandlerFunc.ObjectsServerHandler,
          api.Collections.FullPath ++ (config.collectionResource c).ID ++ "/objects/"),
        (HandlerFunc.ObjectsByIDServerHandler,
          api.Collections.FullPath ++ (config.collectionResource c).ID
            ++ "/objects/{objectid}/"),
        (HandlerFunc.ManifestServerHandler,
          api.Collections.FullPath ++ (config.collectionResource c).ID ++ "/manifest/") ] ∧
    (∀ r ∈ collectionRoutes config ds api (collectionsHandlerOf config api) c,
      r ∈ (registerServices config ds).router ∧
      List.IsPrefix
        (api.Collections.FullPath ++ (config.collectionResource c).ID ++ "/").data
        r.path.data) ∧
    List.IsPrefix
      (api.Collections.FullPath ++ (config.collectionResource c).ID ++ "/objects/").data
      (api.Collections.FullPath ++ (config.collectionResource c).ID
        ++ "/objects/{objectid}/").data := by
  refine ⟨?_, collectionRoutes_spec config ds api c, ?_, ?_⟩
  · intro r hr hh
    exact (collections_route_srv config ds api r hr hh).2.2.1
  · intro r hr
    constructor
    · apply apiRootRoutes_subset config ds api hs hmem
      rw [apiRootRoutes_eq, if_pos he, if_pos hc]
      exact List.mem_cons_of_mem _ (List.mem_cons_of_mem _
        (List.mem_flatMap.mpr ⟨c, hcm, hr⟩))
    · have hm : r.endpoint ∈ specCollectionEndpoints api.Collections.FullPath
          (config.collectionResource c).ID := by
        rw [← collectionRoutes_spec config ds api c]
        exact List.mem_map_of_mem _ hr
      exact (specCollectionEndpoints_below _ _ _ hm).2
  · refine ⟨"{objectid}/".data, ?_⟩
    rw [← String.data_append, ← slash_objects, slash_objects_id]

/-- C9 at the scenario of the specification: the four endpoints of `col-1`. -/
theorem collection_paths_by_concatenation_witness :
    (collectionRoutes (scenarioConfig ["col-1"] true false) exampleDS
        (exampleAPIRoot true true ["col-1"])
        (collectionsHandlerOf (scenarioConfig ["col-1"] true false)
          (exampleAPIRoot true true ["col-1"])) "col-1").map Route.endpoint =
      [ (HandlerFunc.CollectionHandler, "/api1/collections/col-1/"),
        (HandlerFunc.ObjectsServerHandler, "/api1/collections/col-1/objects/"),
        (HandlerFunc.ObjectsByIDServerHandler,
          "/api1/collections/col-1/objects/{objectid}/"),
        (HandlerFunc.ManifestServerHandler, "/api1/collections/col-1/manifest/") ] :=
  (collection_paths_by_concatenation (scenarioConfig ["col-1"] true false) exampleDS
    (exampleAPIRoot true true ["col-1"]) "col-1" (by decide) (by decide) (by decide)
    (by decide) (by decide)).2.1

/-! ## The path of the Collections endpoint (C10) -/

/-- C10: in a configuration as the loader returns it (Collections path
`<apiRootPath>collections/`), for an enabled API root with its Collections service
enabled: the root registers a Collections route, every Collections route it registers has
the path of the root followed by `collections/`, and every route the root registers has
the path of the root as a prefix. -/
theorem collections_path_below_root (config : ConfigType) (ds : Datastorer)
    (api : APIRootServiceType)
    (hs : config.withCollectionsPaths.APIRootServer.Enabled = true)
    (hmem : api ∈ config.withCollectionsPaths.APIRootServer.Services)
    (he : api.Enabled = true) (hc : api.Collections.Enabled = true) :
    (HandlerFunc.CollectionsHandler, api.FullPath ++ "collections/") ∈
      (registerServices config.withCollectionsPaths ds).router.map Route.endpoint ∧
    (∀ r ∈ apiRootRoutes config.withCollectionsPaths ds api,
      r.handler = HandlerFunc.CollectionsHandler →
        r.path = api.FullPath ++ "collections/") ∧
    (∀ r ∈ apiRootRoutes config.withCollectionsPaths ds api,
      r ∈ (registerServices config.withCollectionsPaths ds).router ∧
      List.IsPrefix api.FullPath.data r.path.data) := by
  have hpath : api.Collections.FullPath = api.FullPath ++ "collections/" := by
    simp only [ConfigType.withCollectionsPaths, List.mem_map] at hmem
    obtain ⟨a, _, rfl⟩ := hmem
    rfl
  refine ⟨?_, ?_, ?_⟩
  · apply specRootEndpoints_subset _ ds api hs hmem
    unfold specRootEndpoints
    rw [if_pos he, if_pos hc, hpath]
    exact List.mem_cons_of_mem _ (List.mem_cons_self _ _)
  · intro r hr hh
    rw [(collections_route_srv _ ds api r hr hh).2.2.1, hpath]
  · intro r hr
    refine ⟨apiRootRoutes_subset _ ds api hs hmem r hr, ?_⟩
    have hm : r.endpoint ∈ specRootEndpoints config.withCollectionsPaths api := by
      rw [← apiRootRoutes_endpoints _ ds api]
      exact List.mem_map_of_mem _ hr
    exact specRootEndpoints_below _ api hpath _ hm

/-- C10 at the root `/api1/` whose Collections path the loader has yet to fill in. -/
theorem collections_path_below_root_witness :
    (HandlerFunc.CollectionsHandler, "/api1/" ++ "collections/") ∈
      (registerServices
        (exampleConfig { Enabled := false, Services := [] }
          { Enabled := true,
            Services := [{ exampleAPIRoot true true ["col-1"] with
              Collections := { Enabled := true, FullPath := "", ResourceIDs := ["col-1"] } }] }
          true false).withCollectionsPaths exampleDS).router.map Route.endpoint :=
  (collections_path_below_root
    (exampleConfig { Enabled := false, Services := [] }
      { Enabled := true,
        Services := [{ exampleAPIRoot true true ["col-1"] with
          Collections := { Enabled := true, FullPath := "", ResourceIDs := ["col-1"] } }] }
      true false) exampleDS
    (exampleAPIRoot true true ["col-1"]) (by decide) (by decide) (by decide)
    (by decide)).1

/-! ## Unknown collection identifiers (C11) -/

/-- C11: a configuration in which an API root lists a collection identifier that is not a
key of `CollectionResources` is rejected by the loader, so that `main` ends with the
configuration error before any registration.  On every configuration the loader accepts,
each Collection, Objects, ObjectByID and Manifest route of the router is the route of an
identifier that an API root lists and that is a key of `CollectionResources`. -/
theorem unknown_collection_is_rejected (raw : ConfigType) (ds : Datastorer) :
    (∀ api ∈ raw.APIRootServer.Services, ∀ c ∈ api.Collections.ResourceIDs,
      c ∉ raw.knownCollectionIDs →
        ∃ c', c' ∉ raw.knownCollectionIDs ∧
          mainWithLoader raw = Except.error (ConfigError.unknownCollection c')) ∧
    (∀ loaded : ConfigType, config.New raw = Except.ok loaded →
      mainWithLoader raw = Except.ok (main loaded) ∧
      ∀ r ∈ (registerServices loaded ds).router,
        (r.handler = HandlerFunc.CollectionHandler ∨
          r.handler = HandlerFunc.ObjectsServerHandler ∨
          r.handler = HandlerFunc.ObjectsByIDServerHandler ∨
          r.handler = HandlerFunc.ManifestServerHandler) →
        ∃ api ∈ loaded.APIRootServer.Services, ∃ c ∈ api.Collections.ResourceIDs,
          c ∈ loaded.knownCollectionIDs ∧
          r ∈ collectionRoutes loaded ds api (collectionsHandlerOf loaded api) c) := by
  constructor
  · intro api hmem c hc hmiss
    obtain ⟨c', hc', he⟩ := config_New_unknown raw api c hmem hc hmiss
    refine ⟨c', hc', ?_⟩
    unfold mainWithLoader
    rw [he]
  · intro loaded hok
    constructor
    · unfold mainWithLoader
      rw [hok]
    · intro r hr hh
      obtain ⟨hu, hl⟩ := config_New_ok raw loaded hok
      have hnd : r.handler ≠ HandlerFunc.DiscoveryHandler := by
        rcases hh with h | h | h | h <;> rw [h] <;> decide
      rcases mem_router_cases loaded ds r hr with ⟨_, _, _, _, _, hd⟩ |
        ⟨_, api, hapi, _, hrc, _⟩
      · exact absurd hd hnd
      · obtain ⟨c, hcm, hrcc⟩ := per_collection_route_origin loaded ds api r hrc hh
        refine ⟨api, hapi, c, hcm, ?_, hrcc⟩
        by_contra hmiss
        have hapi' : api ∈ raw.APIRootServer.Services.map
            APIRootServiceType.withCollectionsPath := by
          rw [hl] at hapi
          exact hapi
        obtain ⟨a, ha, hae⟩ := List.mem_map.mp hapi'
        have hca : c ∈ a.Collections.ResourceIDs := by
          rw [← hae] at hcm
          exact hcm
        have hmiss' : c ∉ raw.knownCollectionIDs := by
          rw [hl] at hmiss
          exact hmiss
        have hin : c ∈ raw.unknownCollectionIDs := by
          unfold ConfigType.unknownCollectionIDs
          rw [List.mem_filter]
          exact ⟨List.mem_flatMap.mpr ⟨a, ha, hca⟩, by simpa using hmiss'⟩
        rw [hu] at hin
        exact absurd hin (List.not_mem_nil _)

/-- C11 at the configuration whose root lists `col-9`, which is not in the collection
set: `main` ends with the configuration error. -/
theorem unknown_collection_is_rejected_witness :
    ∃ c', c' ∉ unknownIDConfig.knownCollectionIDs ∧
      mainWithLoader unknownIDConfig = Except.error (ConfigError.unknownCollection c') :=
  (unknown_collection_is_rejected unknownIDConfig exampleDS).1
    (exampleAPIRoot true true ["col-1", "col-9"]) (by decide) "col-9" (by decide)
    (by decide)

/-! ## Failed decodes (C12) -/

end FreeTAXII
